import Mathlib

/-!
Verification development for the divergence trading bot.

Shallow embedding of the core subsystems of the repository in Lean 4:
prices and quantities are rationals, Python `None` is `Option.none`,
Python truthiness of a float value `x` is `x ≠ 0`, and stateful code is
written as explicit state passing.  Every definition is translated from
the corresponding Python source file, noted in its doc comment.
-/

namespace Trading

/-- Signal direction (src/bot/models.py, SignalDirection). -/
inductive SignalDirection where
  | long
  | short
  deriving DecidableEq, Repr

/-- Serialised value of a direction, as in the Python StrEnum. -/
def SignalDirection.value : SignalDirection → String
  | .long => "long"
  | .short => "short"

/-- Order lifecycle state (src/bot/models.py, OrderState). -/
inductive OrderState where
  | pending
  | submitted
  | partiallyFilled
  | filled
  | cancelled
  | rejected
  | closed
  | error
  deriving DecidableEq, Repr, Fintype

/-- Serialised value of an order state, as in the Python StrEnum. -/
def OrderState.value : OrderState → String
  | .pending => "pending"
  | .submitted => "submitted"
  | .partiallyFilled => "partially_filled"
  | .filled => "filled"
  | .cancelled => "cancelled"
  | .rejected => "rejected"
  | .closed => "closed"
  | .error => "error"

/-- Asset class (src/bot/instruments.py, AssetClass). -/
inductive AssetClass where
  | crypto
  | forex
  | index
  | commodity
  | bond
  | stock
  deriving DecidableEq, Repr

/-- Broker type (src/bot/instruments.py, BrokerType). -/
inductive BrokerType where
  | binance
  | oanda
  | ig
  deriving DecidableEq, Repr

/-- Serialised value of a broker type, as in the Python StrEnum. -/
def BrokerType.value : BrokerType → String
  | .binance => "binance"
  | .oanda => "oanda"
  | .ig => "ig"

/-- Trading mode (src/bot/config.py, TradingMode). -/
inductive TradingMode where
  | dev
  | paper
  | live
  deriving DecidableEq, Repr

/-- Modelled from the spec: configuration knobs.  Mirrors
src/bot/config.py (Settings); the fields `tp1_close_pct`,
`min_confirming_indicators`, `min_swing_bars_4h`, `min_swing_bars_1h`,
`min_divergence_magnitude_rsi`, `volume_sma_period`,
`volume_low_threshold` and `candle_gate_lookback` are read by the source
code under src/ but their declarations are absent from the snapshot of
config.py; they are taken from the configuration enumeration in spec §6
(Validator knobs, Execution).  Only the fields the embedded code reads
are included. -/
structure Settings where
  trading_mode : TradingMode := .paper
  max_position_pct : ℚ := 2
  max_daily_loss_pct : ℚ := 5
  min_risk_reward : ℚ := 2
  min_confidence : ℚ := 7 / 10
  max_drawdown_pct : ℚ := 15
  binance_max_open_positions : ℕ := 4
  binance_min_confidence : ℚ := 7 / 10
  oanda_max_open_positions : ℕ := 4
  oanda_min_confidence : ℚ := 7 / 10
  ig_max_open_positions : ℕ := 4
  ig_min_confidence : ℚ := 7 / 10
  use_multi_tf_confirmation : Bool := false
  setup_expiry_hours : ℤ := 24
  lookback_candles : ℕ := 200
  tp1_close_pct : ℚ := 1 / 2
  min_confirming_indicators : ℕ := 2
  min_swing_bars_4h : ℤ := 5
  min_swing_bars_1h : ℤ := 5
  min_divergence_magnitude_rsi : ℚ := 5
  volume_sma_period : ℕ := 20
  volume_low_threshold : ℚ := 1 / 2
  candle_gate_lookback : ℕ := 10
  deriving DecidableEq, Repr

/-- Per-broker open-position cap (src/bot/config.py,
Settings.get_max_open_positions). -/
def Settings.get_max_open_positions (cfg : Settings) (broker_id : String) : ℕ :=
  if broker_id = "oanda" then cfg.oanda_max_open_positions
  else if broker_id = "ig" then cfg.ig_max_open_positions
  else cfg.binance_max_open_positions

/-- Per-broker confidence threshold (src/bot/config.py,
Settings.get_min_confidence). -/
def Settings.get_min_confidence (cfg : Settings) (broker_id : String) : ℚ :=
  if broker_id = "oanda" then cfg.oanda_min_confidence
  else if broker_id = "ig" then cfg.ig_min_confidence
  else cfg.binance_min_confidence

/-- Instrument metadata (src/bot/instruments.py, InstrumentInfo).  The
presentational fields display_name and min_units are carried but unused
by the embedded logic. -/
structure InstrumentInfo where
  symbol : String
  broker : BrokerType
  asset_class : AssetClass
  pip_size : ℚ
  pip_value_per_unit : ℚ
  min_units : ℚ
  max_leverage : ℚ
  fee_rate : ℚ
  base_currency : String
  quote_currency : String
  deriving DecidableEq, Repr

/-- The OANDA instrument table (src/bot/instruments.py,
OANDA_INSTRUMENTS), transcribed entry by entry. -/
def OANDA_INSTRUMENTS : List (String × InstrumentInfo) := [
  ("EUR_USD", ⟨"EUR_USD", .oanda, .forex, (1 / 10000 : ℚ), (1 / 10000 : ℚ), 1, 30, 0, "EUR", "USD"⟩),
  ("GBP_USD", ⟨"GBP_USD", .oanda, .forex, (1 / 10000 : ℚ), (1 / 10000 : ℚ), 1, 30, 0, "GBP", "USD"⟩),
  ("AUD_USD", ⟨"AUD_USD", .oanda, .forex, (1 / 10000 : ℚ), (1 / 10000 : ℚ), 1, 30, 0, "AUD", "USD"⟩),
  ("USD_JPY", ⟨"USD_JPY", .oanda, .forex, (1 / 100 : ℚ), (1 / 100 : ℚ), 1, 30, 0, "USD", "JPY"⟩),
  ("EUR_GBP", ⟨"EUR_GBP", .oanda, .forex, (1 / 10000 : ℚ), (1 / 10000 : ℚ), 1, 30, 0, "EUR", "GBP"⟩),
  ("AUD_NZD", ⟨"AUD_NZD", .oanda, .forex, (1 / 10000 : ℚ), (1 / 10000 : ℚ), 1, 30, 0, "AUD", "NZD"⟩),
  ("GBP_JPY", ⟨"GBP_JPY", .oanda, .forex, (1 / 100 : ℚ), (1 / 100 : ℚ), 1, 30, 0, "GBP", "JPY"⟩),
  ("EUR_JPY", ⟨"EUR_JPY", .oanda, .forex, (1 / 100 : ℚ), (1 / 100 : ℚ), 1, 30, 0, "EUR", "JPY"⟩),
  ("AUD_JPY", ⟨"AUD_JPY", .oanda, .forex, (1 / 100 : ℚ), (1 / 100 : ℚ), 1, 30, 0, "AUD", "JPY"⟩),
  ("NZD_USD", ⟨"NZD_USD", .oanda, .forex, (1 / 10000 : ℚ), (1 / 10000 : ℚ), 1, 30, 0, "NZD", "USD"⟩),
  ("USD_CAD", ⟨"USD_CAD", .oanda, .forex, (1 / 10000 : ℚ), (1 / 10000 : ℚ), 1, 30, 0, "USD", "CAD"⟩),
  ("EUR_AUD", ⟨"EUR_AUD", .oanda, .forex, (1 / 10000 : ℚ), (1 / 10000 : ℚ), 1, 30, 0, "EUR", "AUD"⟩),
  ("GBP_AUD", ⟨"GBP_AUD", .oanda, .forex, (1 / 10000 : ℚ), (1 / 10000 : ℚ), 1, 30, 0, "GBP", "AUD"⟩),
  ("USD_CHF", ⟨"USD_CHF", .oanda, .forex, (1 / 10000 : ℚ), (1 / 10000 : ℚ), 1, 30, 0, "USD", "CHF"⟩),
  ("EUR_NZD", ⟨"EUR_NZD", .oanda, .forex, (1 / 10000 : ℚ), (1 / 10000 : ℚ), 1, 30, 0, "EUR", "NZD"⟩),
  ("XAU_USD", ⟨"XAU_USD", .oanda, .commodity, (1 / 100 : ℚ), (1 / 100 : ℚ), 1, 20, 0, "XAU", "USD"⟩),
  ("XAG_USD", ⟨"XAG_USD", .oanda, .commodity, (1 / 1000 : ℚ), (1 / 1000 : ℚ), 1, 20, 0, "XAG", "USD"⟩),
  ("WTICO_USD", ⟨"WTICO_USD", .oanda, .commodity, (1 / 100 : ℚ), (1 / 100 : ℚ), 1, 20, 0, "OIL", "USD"⟩),
  ("BCO_USD", ⟨"BCO_USD", .oanda, .commodity, (1 / 100 : ℚ), (1 / 100 : ℚ), 1, 20, 0, "OIL", "USD"⟩),
  ("NATGAS_USD", ⟨"NATGAS_USD", .oanda, .commodity, (1 / 1000 : ℚ), (1 / 1000 : ℚ), 1, 20, 0, "GAS", "USD"⟩),
  ("XCU_USD", ⟨"XCU_USD", .oanda, .commodity, (1 / 10000 : ℚ), (1 / 10000 : ℚ), 1, 20, 0, "XCU", "USD"⟩),
  ("SPX500_USD", ⟨"SPX500_USD", .oanda, .index, 1, 1, 1, 20, 0, "SPX", "USD"⟩),
  ("NAS100_USD", ⟨"NAS100_USD", .oanda, .index, 1, 1, 1, 20, 0, "NAS", "USD"⟩),
  ("US30_USD", ⟨"US30_USD", .oanda, .index, 1, 1, 1, 20, 0, "DJI", "USD"⟩),
  ("US2000_USD", ⟨"US2000_USD", .oanda, .index, (1 / 10 : ℚ), (1 / 10 : ℚ), 1, 20, 0, "RUT", "USD"⟩),
  ("AU200_AUD", ⟨"AU200_AUD", .oanda, .index, 1, 1, 1, 20, 0, "ASX", "AUD"⟩),
  ("DE30_EUR", ⟨"DE30_EUR", .oanda, .index, 1, 1, 1, 20, 0, "DAX", "EUR"⟩),
  ("UK100_GBP", ⟨"UK100_GBP", .oanda, .index, 1, 1, 1, 20, 0, "UKX", "GBP"⟩),
  ("JP225_USD", ⟨"JP225_USD", .oanda, .index, 1, 1, 1, 20, 0, "NKY", "USD"⟩),
  ("USB10Y_USD", ⟨"USB10Y_USD", .oanda, .bond, (1 / 100 : ℚ), (1 / 100 : ℚ), 1, 10, 0, "USB", "USD"⟩),
  ("USB02Y_USD", ⟨"USB02Y_USD", .oanda, .bond, (1 / 100 : ℚ), (1 / 100 : ℚ), 1, 10, 0, "USB", "USD"⟩)]

/-- The IG Markets instrument table (src/bot/instruments.py,
IG_INSTRUMENTS), transcribed entry by entry. -/
def IG_INSTRUMENTS : List (String × InstrumentInfo) := [
  ("IX.D.SPTRD.IFE.IP", ⟨"IX.D.SPTRD.IFE.IP", .ig, .index, (1 / 10 : ℚ), (1 / 10 : ℚ), 1, 20, 0, "USD", "USD"⟩),
  ("IX.D.NASDAQ.IFE.IP", ⟨"IX.D.NASDAQ.IFE.IP", .ig, .index, (1 / 10 : ℚ), (1 / 10 : ℚ), 1, 20, 0, "USD", "USD"⟩),
  ("IX.D.ASX.IFE.IP", ⟨"IX.D.ASX.IFE.IP", .ig, .index, (1 / 10 : ℚ), (1 / 10 : ℚ), 1, 20, 0, "AUD", "AUD"⟩),
  ("CS.D.USCGC.TODAY.IP", ⟨"CS.D.USCGC.TODAY.IP", .ig, .commodity, (1 / 10 : ℚ), (1 / 10 : ℚ), 1, 20, 0, "XAU", "USD"⟩),
  ("UA.D.NVDA.DAILY.IP", ⟨"UA.D.NVDA.DAILY.IP", .ig, .stock, (1 / 100 : ℚ), (1 / 100 : ℚ), 1, 5, 0, "NVDA", "USD"⟩),
  ("UA.D.AAPL.DAILY.IP", ⟨"UA.D.AAPL.DAILY.IP", .ig, .stock, (1 / 100 : ℚ), (1 / 100 : ℚ), 1, 5, 0, "AAPL", "USD"⟩),
  ("UA.D.MSFT.DAILY.IP", ⟨"UA.D.MSFT.DAILY.IP", .ig, .stock, (1 / 100 : ℚ), (1 / 100 : ℚ), 1, 5, 0, "MSFT", "USD"⟩),
  ("UA.D.AMZN.DAILY.IP", ⟨"UA.D.AMZN.DAILY.IP", .ig, .stock, (1 / 100 : ℚ), (1 / 100 : ℚ), 1, 5, 0, "AMZN", "USD"⟩),
  ("UA.D.TSLA.DAILY.IP", ⟨"UA.D.TSLA.DAILY.IP", .ig, .stock, (1 / 100 : ℚ), (1 / 100 : ℚ), 1, 5, 0, "TSLA", "USD"⟩),
  ("UA.D.META.DAILY.IP", ⟨"UA.D.META.DAILY.IP", .ig, .stock, (1 / 100 : ℚ), (1 / 100 : ℚ), 1, 5, 0, "META", "USD"⟩),
  ("UA.D.GOOGL.DAILY.IP", ⟨"UA.D.GOOGL.DAILY.IP", .ig, .stock, (1 / 100 : ℚ), (1 / 100 : ℚ), 1, 5, 0, "GOOGL", "USD"⟩),
  ("UA.D.AVGO.DAILY.IP", ⟨"UA.D.AVGO.DAILY.IP", .ig, .stock, (1 / 100 : ℚ), (1 / 100 : ℚ), 1, 5, 0, "AVGO", "USD"⟩)]

/-- Membership in the IG table (src/bot/instruments.py, is_ig). -/
def is_ig (symbol : String) : Bool :=
  (IG_INSTRUMENTS.lookup symbol).isSome

/-- Membership in the OANDA table (src/bot/instruments.py, is_oanda). -/
def is_oanda (symbol : String) : Bool :=
  (OANDA_INSTRUMENTS.lookup symbol).isSome

/-- Asset class of a symbol (src/bot/instruments.py, get_asset_class):
OANDA table first, then IG table, default Crypto. -/
def get_asset_class (symbol : String) : AssetClass :=
  match OANDA_INSTRUMENTS.lookup symbol with
  | some i => i.asset_class
  | none =>
    match IG_INSTRUMENTS.lookup symbol with
    | some i => i.asset_class
    | none => .crypto

/-- Broker that handles a symbol (src/bot/instruments.py,
route_symbol): IG table first, then OANDA, default Binance. -/
def route_symbol (symbol : String) : BrokerType :=
  if is_ig symbol then .ig
  else if is_oanda symbol then .oanda
  else .binance

/-- Instrument metadata with crypto auto-generation
(src/bot/instruments.py, get_instrument). -/
def get_instrument (symbol : String) : InstrumentInfo :=
  match IG_INSTRUMENTS.lookup symbol with
  | some i => i
  | none =>
    match OANDA_INSTRUMENTS.lookup symbol with
    | some i => i
    | none =>
      let parts := symbol.splitOn "/"
      let base := parts.headD symbol
      let quote := if parts.length > 1 then parts.getD 1 "USDT" else "USDT"
      ⟨symbol, .binance, .crypto, (1 / 100 : ℚ), (1 / 100 : ℚ), 0, 1,
        (1 / 1000 : ℚ), base, quote⟩

end Trading

namespace Trading

/-- Modelled from the spec: divergence signal record.  Mirrors
src/bot/models.py (DivergenceSignal); the fields
`confirming_indicators`, `swing_length_bars` and `divergence_magnitude`
are read by src/bot/layer2_intelligence/validator.py but their
declarations are absent from the snapshot of models.py; they follow the
Signal record of spec §3.  `divergence_type` is kept as its serialised
string. -/
structure DivergenceSignal where
  divergence_detected : Bool
  divergence_type : Option String := none
  indicator : Option String := none
  confidence : ℚ
  direction : Option SignalDirection := none
  entry_price : Option ℚ := none
  stop_loss : Option ℚ := none
  take_profit_1 : Option ℚ := none
  take_profit_2 : Option ℚ := none
  take_profit_3 : Option ℚ := none
  reasoning : String := ""
  symbol : String := ""
  timeframe : String := ""
  confirming_indicators : Option (List String) := none
  swing_length_bars : Option ℤ := none
  divergence_magnitude : Option ℚ := none
  deriving DecidableEq, Repr

/-- Modelled from the spec: indicator arrays for one (symbol,
timeframe).  Mirrors src/bot/models.py (IndicatorSet); the fields
`adx`, `volume_sma` and `candle_patterns` are produced by
src/bot/layer1_data/indicators.py and read by the validator but absent
from the snapshot of models.py; they follow spec §3 (IndicatorSet).
Arrays the embedded code never reads (macd, obv, mfi, stochastic, cci,
williams, short and medium EMAs, closes, highs, lows) are omitted. -/
structure IndicatorSet where
  symbol : String := ""
  timeframe : String := ""
  rsi : List (Option ℚ) := []
  atr : List (Option ℚ) := []
  adx : List (Option ℚ) := []
  ema_long : List (Option ℚ) := []
  volumes : List ℚ := []
  volume_sma : List (Option ℚ) := []
  candle_patterns : List (String × List ℤ) := []
  deriving DecidableEq, Repr

/-- Result of deterministic signal validation (src/bot/models.py,
ValidationResult). -/
structure ValidationResult where
  passed : Bool
  reason : String
  deriving DecidableEq, Repr

/-- Python truthiness of an optional float: not None and nonzero. -/
def pyTruthy : Option ℚ → Bool
  | none => false
  | some x => x != 0

/-- Last non-None value of an indicator array
(src/bot/layer2_intelligence/validator.py, _last_valid). -/
def _last_valid (arr : List (Option ℚ)) : Option ℚ :=
  arr.reverse.findSome? id

/-- Python substring containment test, used for the expression
`"4h" in signal.timeframe`. -/
def substrMem (needle hay : String) : Bool :=
  (hay.splitOn needle).length != 1

/-- Python slice `l[-n:]`: the last n elements for n positive, the
whole list for n = 0. -/
def pySliceLast (n : ℕ) (l : List ℤ) : List ℤ :=
  if n = 0 then l else l.drop (l.length - n)

/-- Rule 0 of validate_signal: the signal has no direction. -/
def rule_direction_missing (s : DivergenceSignal) : Bool :=
  s.direction.isNone

/-- Rule 1: confidence below the global minimum. -/
def rule_low_confidence (s : DivergenceSignal) (cfg : Settings) : Bool :=
  decide (s.confidence < cfg.min_confidence)

/-- Rule 2: entry, stop loss or first take profit missing (None). -/
def rule_missing_levels (s : DivergenceSignal) : Bool :=
  s.entry_price.isNone || s.stop_loss.isNone || s.take_profit_1.isNone

/-- Rule 3, first return: Long with stop loss at or above entry.  The
source guards with Python truthiness of entry_price and stop_loss, so a
price equal to 0 skips the rule. -/
def rule_long_sl_side (s : DivergenceSignal) : Bool :=
  match s.direction, s.entry_price, s.stop_loss with
  | some .long, some e, some sl => (e != 0) && (sl != 0) && decide (sl ≥ e)
  | _, _, _ => false

/-- Rule 3, second return: Long with take profit 1 at or below entry
(take_profit_1 itself also guarded by truthiness). -/
def rule_long_tp_side (s : DivergenceSignal) : Bool :=
  match s.direction, s.entry_price, s.stop_loss, s.take_profit_1 with
  | some .long, some e, some sl, some tp =>
      (e != 0) && (sl != 0) && (tp != 0) && decide (tp ≤ e)
  | _, _, _, _ => false

/-- Rule 3, third return: Short with stop loss at or below entry. -/
def rule_short_sl_side (s : DivergenceSignal) : Bool :=
  match s.direction, s.entry_price, s.stop_loss with
  | some .short, some e, some sl => (e != 0) && (sl != 0) && decide (sl ≤ e)
  | _, _, _ => false

/-- Rule 3, fourth return: Short with take profit 1 at or above entry. -/
def rule_short_tp_side (s : DivergenceSignal) : Bool :=
  match s.direction, s.entry_price, s.stop_loss, s.take_profit_1 with
  | some .short, some e, some sl, some tp =>
      (e != 0) && (sl != 0) && (tp != 0) && decide (tp ≥ e)
  | _, _, _, _ => false

/-- Rule 4, first return: zero risk distance (entry equals stop). -/
def rule_zero_risk (s : DivergenceSignal) : Bool :=
  match s.entry_price, s.stop_loss, s.take_profit_1 with
  | some e, some sl, some tp =>
      (e != 0) && (sl != 0) && (tp != 0) && decide (|e - sl| = 0)
  | _, _, _ => false

/-- Rule 4, second return: reward to risk quotient below
min_risk_reward minus the 0.01 tolerance. -/
def rule_low_rr (s : DivergenceSignal) (cfg : Settings) : Bool :=
  match s.entry_price, s.stop_loss, s.take_profit_1 with
  | some e, some sl, some tp =>
      (e != 0) && (sl != 0) && (tp != 0) && decide (|e - sl| ≠ 0) &&
        decide (|tp - e| / |e - sl| < cfg.min_risk_reward - 1 / 100)
  | _, _, _ => false

/-- Rule 5, first return: Long with last RSI above 80. -/
def rule_rsi_overbought (s : DivergenceSignal) (ind : IndicatorSet) : Bool :=
  match _last_valid ind.rsi, s.direction with
  | some r, some .long => decide (r > 80)
  | _, _ => false

/-- Rule 5, second return: Short with last RSI below 20. -/
def rule_rsi_oversold (s : DivergenceSignal) (ind : IndicatorSet) : Bool :=
  match _last_valid ind.rsi, s.direction with
  | some r, some .short => decide (r < 20)
  | _, _ => false

/-- Rule 6, first return: stop distance below one half of the last
ATR (guards: last ATR truthy and positive, entry and stop truthy). -/
def rule_stop_tight (s : DivergenceSignal) (ind : IndicatorSet) : Bool :=
  match _last_valid ind.atr, s.entry_price, s.stop_loss with
  | some a, some e, some sl =>
      (a != 0) && decide (a > 0) && (e != 0) && (sl != 0) &&
        decide (|e - sl| / a < 1 / 2)
  | _, _, _ => false

/-- Rule 6, second return: stop distance above five times the last ATR. -/
def rule_stop_wide (s : DivergenceSignal) (ind : IndicatorSet) : Bool :=
  match _last_valid ind.atr, s.entry_price, s.stop_loss with
  | some a, some e, some sl =>
      (a != 0) && decide (a > 0) && (e != 0) && (sl != 0) &&
        decide (|e - sl| / a > 5)
  | _, _, _ => false

/-- Rule 7: crypto signal with last ADX below 20. -/
def rule_crypto_choppy (s : DivergenceSignal) (ind : IndicatorSet) : Bool :=
  match _last_valid ind.adx with
  | some x => decide (get_asset_class s.symbol = .crypto) && decide (x < 20)
  | none => false

/-- Rule 8: ranging market.  Last ADX below 25, direction present, at
least 10 non-None EMA-long values, and the relative change between the
last value and the value at Python index -10 of the non-None
subsequence (9 positions before the last) below 0.05 percent; the
reference value must be nonzero. -/
def rule_ranging_market (s : DivergenceSignal) (ind : IndicatorSet) : Bool :=
  match _last_valid ind.adx, s.direction with
  | some x, some _ =>
      decide (x < 25) &&
        (let vals := ind.ema_long.filterMap id
         if vals.length ≥ 10 then
           let ema_now := vals.getD (vals.length - 1) 0
           let ema_10_ago := vals.getD (vals.length - 10) 0
           (ema_10_ago != 0) &&
             decide (|ema_now - ema_10_ago| / |ema_10_ago| * 100 < 1 / 20)
         else false)
  | _, _ => false

/-- Rule 9: divergence detected with fewer confirming indicators than
the configured minimum. -/
def rule_few_confirming (s : DivergenceSignal) (cfg : Settings) : Bool :=
  s.divergence_detected &&
    (match s.confirming_indicators with
     | some l => decide (l.length < cfg.min_confirming_indicators)
     | none => false)

/-- Rule 10: swing length below the per-timeframe minimum (the 4h
minimum applies when "4h" occurs in the timeframe string). -/
def rule_short_swing (s : DivergenceSignal) (cfg : Settings) : Bool :=
  match s.swing_length_bars with
  | some n =>
      decide (n < (if substrMem "4h" s.timeframe then cfg.min_swing_bars_4h
                   else cfg.min_swing_bars_1h))
  | none => false

/-- Rule 11: RSI divergence magnitude below the configured minimum. -/
def rule_small_magnitude (s : DivergenceSignal) (cfg : Settings) : Bool :=
  match s.divergence_magnitude, s.indicator with
  | some m, some i => (i == "RSI") && decide (m < cfg.min_divergence_magnitude_rsi)
  | _, _ => false

/-- Rule 12, first return: one of the last three volumes is zero. -/
def rule_zero_volume (ind : IndicatorSet) : Bool :=
  (!ind.volumes.isEmpty) && decide (ind.volumes.length ≥ 3) &&
    ((ind.volumes.drop (ind.volumes.length - 3)).any (fun v => v == 0))

/-- Rule 12, second return: the maximum of the last three volumes below
one percent of the last volume SMA. -/
def rule_near_zero_volume (ind : IndicatorSet) : Bool :=
  (!ind.volumes.isEmpty) && decide (ind.volumes.length ≥ 3) &&
    (let recent := ind.volumes.drop (ind.volumes.length - 3)
     let vol_sma_last :=
       if !ind.volume_sma.isEmpty then _last_valid ind.volume_sma else none
     match vol_sma_last, recent with
     | some v, h :: t =>
         (v != 0) && decide (v > 0) &&
           decide (t.foldl max h < v * (1 / 100))
     | _, _ => false)

/-- Rule 13: last volume below volume_low_threshold times the last
volume SMA. -/
def rule_low_volume (ind : IndicatorSet) (cfg : Settings) : Bool :=
  (!ind.volume_sma.isEmpty) && (!ind.volumes.isEmpty) &&
    (match _last_valid ind.volume_sma, ind.volumes.getLast? with
     | some v, some current =>
         (v != 0) && decide (v > 0) &&
           decide (current < v * cfg.volume_low_threshold)
     | _, _ => false)

/-- Bullish pattern names scanned by the candle gate. -/
def bullish_patterns : List String :=
  ["hammer", "inverted_hammer", "piercing", "morning_star"]

/-- Bearish pattern names scanned by the candle gate. -/
def bearish_patterns : List String :=
  ["shooting_star", "hanging_man", "dark_cloud", "evening_star"]

/-- Candle-gate pattern search (validator.py Rule 14 body): whether a
matching reversal pattern occurs in the last candle_gate_lookback bars.
Long: any bullish pattern strictly positive, or engulfing strictly
positive.  Short: any bearish pattern nonzero, or engulfing strictly
negative. -/
def candle_gate_found (d : SignalDirection) (pats : List (String × List ℤ))
    (lookback : ℕ) : Bool :=
  match d with
  | .long =>
      (bullish_patterns.any (fun name =>
        match pats.lookup name with
        | some vals => (pySliceLast lookback vals).any (fun v => decide (v > 0))
        | none => false)) ||
      (match pats.lookup "engulfing" with
       | some vals => (pySliceLast lookback vals).any (fun v => decide (v > 0))
       | none => false)
  | .short =>
      (bearish_patterns.any (fun name =>
        match pats.lookup name with
        | some vals => (pySliceLast lookback vals).any (fun v => v != 0)
        | none => false)) ||
      (match pats.lookup "engulfing" with
       | some vals => (pySliceLast lookback vals).any (fun v => decide (v < 0))
       | none => false)

/-- Rule 14: candle gate, rejecting when no matching reversal pattern
was found. -/
def rule_candle_gate (s : DivergenceSignal) (ind : IndicatorSet)
    (cfg : Settings) : Bool :=
  match s.direction with
  | some d =>
      (!ind.candle_patterns.isEmpty) &&
        !(candle_gate_found d ind.candle_patterns cfg.candle_gate_lookback)
  | none => false

end Trading

namespace Trading

/-- Default of an optional price used only when building reason
strings. -/
def optD (o : Option ℚ) : ℚ := o.getD 0

/-- The ordered rule table of validate_signal
(src/bot/layer2_intelligence/validator.py, validate_signal).  Each
entry carries the rule rejection condition and the rejection reason;
the conditions are the individual `rule_*` definitions above, in source
order (multi-return rules contribute one entry per return statement).
Numeric formatting inside reason strings differs from Python
f-strings (Lean prints exact rationals). -/
def ruleList (s : DivergenceSignal) (ind : IndicatorSet) (cfg : Settings) :
    List (Bool × String) :=
  [(rule_direction_missing s, "Signal has no direction (long/short)"),
   (rule_low_confidence s cfg,
     "Confidence " ++ toString s.confidence ++ " below " ++
       toString cfg.min_confidence ++ " threshold"),
   (rule_missing_levels s, "Missing entry_price, stop_loss, or take_profit_1"),
   (rule_long_sl_side s, "Long signal: stop_loss must be below entry_price"),
   (rule_long_tp_side s, "Long signal: take_profit_1 must be above entry_price"),
   (rule_short_sl_side s, "Short signal: stop_loss must be above entry_price"),
   (rule_short_tp_side s, "Short signal: take_profit_1 must be below entry_price"),
   (rule_zero_risk s, "Zero risk distance (entry == stop_loss)"),
   (rule_low_rr s cfg,
     "R:R ratio " ++
       toString (|optD s.take_profit_1 - optD s.entry_price| /
         |optD s.entry_price - optD s.stop_loss|) ++
       " below " ++ toString cfg.min_risk_reward ++ " minimum"),
   (rule_rsi_overbought s ind,
     "Long signal but RSI=" ++ toString (optD (_last_valid ind.rsi)) ++
       " is extremely overbought (>80)"),
   (rule_rsi_oversold s ind,
     "Short signal but RSI=" ++ toString (optD (_last_valid ind.rsi)) ++
       " is extremely oversold (<20)"),
   (rule_stop_tight s ind,
     "Stop too tight: " ++
       toString (|optD s.entry_price - optD s.stop_loss| /
         optD (_last_valid ind.atr)) ++ "x ATR (minimum 0.5x)"),
   (rule_stop_wide s ind,
     "Stop too wide: " ++
       toString (|optD s.entry_price - optD s.stop_loss| /
         optD (_last_valid ind.atr)) ++ "x ATR (maximum 5.0x)"),
   (rule_crypto_choppy s ind,
     "Crypto market too choppy: ADX=" ++
       toString (optD (_last_valid ind.adx)) ++ " (minimum 20)"),
   (rule_ranging_market s ind,
     "Ranging market: ADX=" ++ toString (optD (_last_valid ind.adx)) ++
       " — divergence unreliable"),
   (rule_few_confirming s cfg,
     "Only " ++ toString ((s.confirming_indicators.getD []).length) ++
       " confirming indicator(s) (minimum " ++
       toString cfg.min_confirming_indicators ++ ")"),
   (rule_short_swing s cfg,
     "Swing length " ++ toString (s.swing_length_bars.getD 0) ++
       " bars below minimum for " ++ s.timeframe),
   (rule_small_magnitude s cfg,
     "RSI divergence magnitude " ++ toString (optD s.divergence_magnitude) ++
       " below minimum " ++ toString cfg.min_divergence_magnitude_rsi),
   (rule_zero_volume ind, "Zero volume detected in last 3 bars"),
   (rule_near_zero_volume ind,
     "Near-zero volume: max recent volume < 1% of volume SMA"),
   (rule_low_volume ind cfg,
     "Low volume: last volume < " ++ toString (cfg.volume_low_threshold * 100) ++
       "% of SMA(" ++ toString cfg.volume_sma_period ++ ")"),
   (rule_candle_gate s ind cfg,
     "No " ++
       (if s.direction = some .long then "bullish" else "bearish") ++
       " reversal candlestick in last " ++
       toString cfg.candle_gate_lookback ++ " bars")]

/-- Index of the ranging-market entry in `ruleList`. -/
def rangingRuleIdx : ℕ := 14

/-- First-failure runner: return the first entry whose condition holds,
otherwise pass.  This is the sequential early-return structure of
validate_signal. -/
def firstFail : List (Bool × String) → ValidationResult
  | [] => ⟨true, "All validation rules passed"⟩
  | p :: rest => if p.1 then ⟨false, p.2⟩ else firstFail rest

/-- Index of the first failing rule, if any. -/
def firstFailIdx (l : List (Bool × String)) : Option ℕ :=
  if l.any (fun p => p.1) then some (l.findIdx (fun p => p.1)) else none

/-- Deterministic signal validation
(src/bot/layer2_intelligence/validator.py, validate_signal): apply the
rules in order, returning the first failure, else pass. -/
def validate_signal (s : DivergenceSignal) (ind : IndicatorSet)
    (cfg : Settings) : ValidationResult :=
  firstFail (ruleList s ind cfg)

theorem firstFail_passed_iff (l : List (Bool × String)) :
    (firstFail l).passed = true ↔ ∀ p ∈ l, p.1 = false := by
  induction l with
  | nil => simp [firstFail]
  | cons p rest ih =>
      cases hp : p.1 <;> simp [firstFail, hp, ih]

theorem firstFailIdx_nil : firstFailIdx [] = none := rfl

end Trading

namespace Trading

/-- Default settings instance (all configuration defaults). -/
def cfgDefault : Settings := {}

/-- Indicator set with every array empty: each indicator-dependent rule
is skipped, as in the source when no indicator data is present. -/
def indEmpty : IndicatorSet := {}

/-- A Long signal whose entry price is exactly 0: Python truthiness
makes validate_signal skip the stop-side and risk-reward rules. -/
def sigZeroEntry : DivergenceSignal :=
  { divergence_detected := true, confidence := 9 / 10,
    direction := some .long, entry_price := some 0,
    stop_loss := some 5, take_profit_1 := some 10,
    symbol := "BTC/USDT", timeframe := "1h" }

/-- C1 counterexample: a signal with direction Long, entry_price 0,
stop_loss 5 and take_profit_1 10 passes validate_signal, yet its stop
loss is not below its entry price — the truthiness guards of rules 3
and 4 skip both checks when a price equals 0.  This refutes the claim
that every validated Long signal satisfies
stop_loss < entry_price < take_profit_1. -/
theorem zero_entry_validated_violates_stop_side :
    (validate_signal sigZeroEntry indEmpty cfgDefault).passed = true ∧
    sigZeroEntry.direction = some SignalDirection.long ∧
    sigZeroEntry.stop_loss = some 5 ∧ sigZeroEntry.entry_price = some 0 ∧
    ¬ ((5 : ℚ) < 0) := by
  refine ⟨?_, rfl, rfl, rfl, by norm_num⟩
  norm_num [validate_signal, ruleList, firstFail, rule_direction_missing,
    rule_low_confidence, rule_missing_levels, rule_long_sl_side,
    rule_long_tp_side, rule_short_sl_side, rule_short_tp_side,
    rule_zero_risk, rule_low_rr, rule_rsi_overbought, rule_rsi_oversold,
    rule_stop_tight, rule_stop_wide, rule_crypto_choppy,
    rule_ranging_market, rule_few_confirming, rule_short_swing,
    rule_small_magnitude, rule_zero_volume, rule_near_zero_volume,
    rule_low_volume, rule_candle_gate, sigZeroEntry, indEmpty, cfgDefault,
    _last_valid, pyTruthy]

/-- C1 (amended): for nonzero entry, stop and take-profit prices, a
signal that passes validate_signal satisfies the stop-side ordering and
the risk-reward bound of the claim, for Long and Short alike. -/
theorem validated_levels_and_risk_reward
    (s : DivergenceSignal) (ind : IndicatorSet) (cfg : Settings)
    (e sl tp : ℚ)
    (he : s.entry_price = some e) (hsl : s.stop_loss = some sl)
    (htp : s.take_profit_1 = some tp)
    (he0 : e ≠ 0) (hsl0 : sl ≠ 0) (htp0 : tp ≠ 0)
    (hp : (validate_signal s ind cfg).passed = true) :
    (s.direction = some SignalDirection.long →
      sl < e ∧ e < tp ∧ (tp - e) / (e - sl) ≥ cfg.min_risk_reward - 1 / 100) ∧
    (s.direction = some SignalDirection.short →
      tp < e ∧ e < sl ∧ (e - tp) / (sl - e) ≥ cfg.min_risk_reward - 1 / 100) := by
  have hall := (firstFail_passed_iff (ruleList s ind cfg)).mp hp
  simp only [ruleList, List.mem_cons, List.not_mem_nil, or_false,
    forall_eq_or_imp, forall_eq] at hall
  obtain ⟨-, -, -, h3a, h3b, h3c, h3d, h4a, h4b, -⟩ := hall
  have hbe : (e != 0) = true := by simpa [bne_iff_ne] using he0
  have hbs : (sl != 0) = true := by simpa [bne_iff_ne] using hsl0
  have hbt : (tp != 0) = true := by simpa [bne_iff_ne] using htp0
  constructor
  · intro hdir
    simp only [rule_long_sl_side, hdir, he, hsl] at h3a
    simp only [rule_long_tp_side, hdir, he, hsl, htp] at h3b
    simp only [rule_zero_risk, he, hsl, htp] at h4a
    simp only [rule_low_rr, he, hsl, htp] at h4b
    simp only [hbe, hbs, hbt, Bool.true_and, decide_eq_false_iff_not,
      not_le] at h3a h3b
    simp only [hbe, hbs, hbt, Bool.true_and, decide_eq_false_iff_not] at h4a
    have hd : decide (|e - sl| ≠ 0) = true := by simp [h4a]
    simp only [hbe, hbs, hbt, hd, Bool.true_and, decide_eq_false_iff_not,
      not_lt] at h4b
    have habs1 : |e - sl| = e - sl := abs_of_pos (by linarith)
    have habs2 : |tp - e| = tp - e := abs_of_pos (by linarith)
    rw [habs1, habs2] at h4b
    exact ⟨h3a, h3b, h4b⟩
  · intro hdir
    simp only [rule_short_sl_side, hdir, he, hsl] at h3c
    simp only [rule_short_tp_side, hdir, he, hsl, htp] at h3d
    simp only [rule_zero_risk, he, hsl, htp] at h4a
    simp only [rule_low_rr, he, hsl, htp] at h4b
    simp only [hbe, hbs, hbt, Bool.true_and, decide_eq_false_iff_not,
      not_le] at h3c h3d
    simp only [hbe, hbs, hbt, Bool.true_and, decide_eq_false_iff_not] at h4a
    have hd : decide (|e - sl| ≠ 0) = true := by simp [h4a]
    simp only [hbe, hbs, hbt, hd, Bool.true_and, decide_eq_false_iff_not,
      not_lt] at h4b
    have habs1 : |e - sl| = -(e - sl) := abs_of_neg (by linarith)
    have habs2 : |tp - e| = -(tp - e) := abs_of_neg (by linarith)
    rw [habs1, habs2] at h4b
    have hrw : -(tp - e) / -(e - sl) = (e - tp) / (sl - e) := by ring
    rw [hrw] at h4b
    exact ⟨h3d, h3c, h4b⟩

/-- A plainly valid Long signal: entry 100, stop 95, take profit 110,
confidence 0.9. -/
def sigLongOk : DivergenceSignal :=
  { divergence_detected := true, confidence := 9 / 10,
    direction := some .long, entry_price := some 100,
    stop_loss := some 95, take_profit_1 := some 110,
    symbol := "BTC/USDT", timeframe := "1h" }

/-- Witness for the amended C1 theorem at sigLongOk. -/
theorem validated_levels_and_risk_reward_witness :
    (95 : ℚ) < 100 ∧ (100 : ℚ) < 110 ∧
      ((110 : ℚ) - 100) / (100 - 95) ≥ cfgDefault.min_risk_reward - 1 / 100 := by
  have h := validated_levels_and_risk_reward sigLongOk indEmpty cfgDefault
    100 95 110 rfl rfl rfl (by norm_num) (by norm_num) (by norm_num)
    (by norm_num [validate_signal, ruleList, firstFail, rule_direction_missing,
      rule_low_confidence, rule_missing_levels, rule_long_sl_side,
      rule_long_tp_side, rule_short_sl_side, rule_short_tp_side,
      rule_zero_risk, rule_low_rr, rule_rsi_overbought, rule_rsi_oversold,
      rule_stop_tight, rule_stop_wide, rule_crypto_choppy,
      rule_ranging_market, rule_few_confirming, rule_short_swing,
      rule_small_magnitude, rule_zero_volume, rule_near_zero_volume,
      rule_low_volume, rule_candle_gate, sigLongOk, indEmpty, cfgDefault,
      _last_valid, pyTruthy])
  exact h.1 rfl

end Trading

namespace Trading

/-- C7: validate_signal passes exactly when no individual rule
condition holds, and therefore any permutation of the rule table
rejects exactly the same signals (only the reported reason may
change). -/
theorem validator_rule_order_invariance
    (s : DivergenceSignal) (ind : IndicatorSet) (cfg : Settings) :
    ((validate_signal s ind cfg).passed = true ↔
      ∀ p ∈ ruleList s ind cfg, p.1 = false) ∧
    (∀ l : List (Bool × String), (ruleList s ind cfg).Perm l →
      (firstFail l).passed = (validate_signal s ind cfg).passed) := by
  refine ⟨firstFail_passed_iff _, fun l hperm => ?_⟩
  have h1 := firstFail_passed_iff l
  have h2 := firstFail_passed_iff (ruleList s ind cfg)
  have hmem : (∀ p ∈ l, p.1 = false) ↔ ∀ p ∈ ruleList s ind cfg, p.1 = false :=
    ⟨fun h p hp => h p (hperm.mem_iff.mp hp),
     fun h p hp => h p (hperm.mem_iff.mpr hp)⟩
  cases hl : (firstFail l).passed with
  | true =>
      have := h2.mpr (hmem.mp (h1.mp hl))
      exact (this).symm
  | false =>
      cases hv : (validate_signal s ind cfg).passed with
      | true =>
          have := h1.mpr (hmem.mpr (h2.mp hv))
          rw [hl] at this
          exact absurd this (by simp)
      | false => rfl

/-- Witness for C7: running the reversed rule table on a concrete
signal yields the same pass status as validate_signal. -/
theorem validator_rule_order_invariance_witness :
    (firstFail (ruleList sigZeroEntry indEmpty cfgDefault).reverse).passed =
      (validate_signal sigZeroEntry indEmpty cfgDefault).passed :=
  (validator_rule_order_invariance sigZeroEntry indEmpty cfgDefault).2
    (ruleList sigZeroEntry indEmpty cfgDefault).reverse
    (List.reverse_perm _).symm

end Trading

namespace Trading

/-- The ranging-market rejection condition exactly as the claim words
it: last ADX below 25 and the relative change between EMA_long at the
index t of the last value and EMA_long at index t - 10, times 100,
below 0.05. -/
def claimRangingCond (ind : IndicatorSet) : Prop :=
  match _last_valid ind.adx with
  | some x =>
      x < 25 ∧
        (let vals := ind.ema_long.filterMap id
         let t := vals.length - 1
         |vals.getD t 0 - vals.getD (t - 10) 0| / |vals.getD (t - 10) 0| * 100
           < 1 / 20)
  | none => False

/-- A Long signal with sane levels used for the ranging-market
instances: entry 100, stop 95, take profit 110. -/
def sigRanging : DivergenceSignal :=
  { divergence_detected := true, confidence := 9 / 10,
    direction := some .long, entry_price := some 100,
    stop_loss := some 95, take_profit_1 := some 110,
    symbol := "BTC/USDT", timeframe := "1h" }

/-- EMA-long series of length 11 whose value at Python index -10 of the
non-missing subsequence equals the last value, while the value 10
positions before the last differs from it by 99 percent. -/
def indOffsetEma : IndicatorSet :=
  { adx := [some 20],
    ema_long := some 100 :: List.replicate 10 (some 1) }

/-- C8 counterexample: on indOffsetEma the validator rejects at the
ranging-market rule (the code compares the last EMA value with the one
9 positions earlier, Python index -10), although the condition of the
claim (index t - 10, i.e. 10 positions earlier) is far above the 0.05
percent threshold. -/
theorem ranging_offset_counterexample :
    firstFailIdx (ruleList sigRanging indOffsetEma cfgDefault) =
      some rangingRuleIdx ∧
    (validate_signal sigRanging indOffsetEma cfgDefault).passed = false ∧
    ¬ claimRangingCond indOffsetEma := by
  refine ⟨?_, ?_, ?_⟩
  · norm_num [firstFailIdx, ruleList, List.any_cons, List.findIdx_cons,
      rangingRuleIdx, validate_signal, firstFail, rule_direction_missing,
      rule_low_confidence, rule_missing_levels, rule_long_sl_side,
      rule_long_tp_side, rule_short_sl_side, rule_short_tp_side,
      rule_zero_risk, rule_low_rr, rule_rsi_overbought, rule_rsi_oversold,
      rule_stop_tight, rule_stop_wide, rule_crypto_choppy,
      rule_ranging_market, rule_few_confirming, rule_short_swing,
      rule_small_magnitude, rule_zero_volume, rule_near_zero_volume,
      rule_low_volume, rule_candle_gate, sigRanging, indOffsetEma,
      cfgDefault, _last_valid, get_asset_class, OANDA_INSTRUMENTS,
      IG_INSTRUMENTS, List.lookup, List.replicate, List.filterMap_cons,
      id_eq, List.filterMap_nil, List.getD_cons_zero, List.getD_cons_succ,
      List.length_cons, List.length_nil, List.getD, bne_iff_ne,
      (by decide : ((1:ℚ) != 0) = true), (by decide : ((100:ℚ) != 0) = true)]
  · norm_num [validate_signal, ruleList, firstFail, rule_direction_missing,
      rule_low_confidence, rule_missing_levels, rule_long_sl_side,
      rule_long_tp_side, rule_short_sl_side, rule_short_tp_side,
      rule_zero_risk, rule_low_rr, rule_rsi_overbought, rule_rsi_oversold,
      rule_stop_tight, rule_stop_wide, rule_crypto_choppy,
      rule_ranging_market, sigRanging, indOffsetEma, cfgDefault,
      _last_valid, get_asset_class, OANDA_INSTRUMENTS, IG_INSTRUMENTS,
      List.lookup, List.replicate, List.filterMap_cons, id_eq,
      List.filterMap_nil, List.getD_cons_zero, List.getD_cons_succ,
      List.length_cons, List.length_nil, List.getD, bne_iff_ne,
      (by decide : ((1:ℚ) != 0) = true), (by decide : ((100:ℚ) != 0) = true)]
  · norm_num [claimRangingCond, indOffsetEma, _last_valid, List.replicate,
      List.filterMap_cons, id_eq, List.filterMap_nil, List.getD_cons_zero,
      List.getD_cons_succ, List.length_cons, List.length_nil, List.getD]

end Trading

namespace Trading

/-- C8 (amended): for a signal that no earlier rule rejects, the first
failing rule is the ranging-market rule exactly when the source
condition `rule_ranging_market` holds: last ADX below 25, at least 10
non-missing EMA-long values, the value at Python index -10 of the
non-missing subsequence nonzero, and the relative change between it
and the last value below 0.05 percent; when it holds the signal is
rejected. -/
theorem ranging_rejection_exact_condition
    (s : DivergenceSignal) (ind : IndicatorSet) (cfg : Settings)
    (h0 : rule_direction_missing s = false)
    (h1 : rule_low_confidence s cfg = false)
    (h2 : rule_missing_levels s = false)
    (h3 : rule_long_sl_side s = false)
    (h4 : rule_long_tp_side s = false)
    (h5 : rule_short_sl_side s = false)
    (h6 : rule_short_tp_side s = false)
    (h7 : rule_zero_risk s = false)
    (h8 : rule_low_rr s cfg = false)
    (h9 : rule_rsi_overbought s ind = false)
    (h10 : rule_rsi_oversold s ind = false)
    (h11 : rule_stop_tight s ind = false)
    (h12 : rule_stop_wide s ind = false)
    (h13 : rule_crypto_choppy s ind = false) :
    (firstFailIdx (ruleList s ind cfg) = some rangingRuleIdx ↔
      rule_ranging_market s ind = true) ∧
    (rule_ranging_market s ind = true →
      (validate_signal s ind cfg).passed = false) := by
  constructor
  · cases hr : rule_ranging_market s ind
    · simp only [ruleList, firstFailIdx, List.any_cons, List.findIdx_cons,
        h0, h1, h2, h3, h4, h5, h6, h7, h8, h9, h10, h11, h12, h13, hr,
        Bool.false_or, cond_false, rangingRuleIdx]
      constructor
      · intro hc
        split at hc
        · simp only [Option.some.injEq] at hc
          omega
        · exact absurd hc (by simp)
      · intro hc
        exact absurd hc (by simp)
    · simp [ruleList, firstFailIdx, List.any_cons, List.findIdx_cons,
        h0, h1, h2, h3, h4, h5, h6, h7, h8, h9, h10, h11, h12, h13, hr,
        rangingRuleIdx]
  · intro hr
    simp [validate_signal, ruleList, firstFail,
      h0, h1, h2, h3, h4, h5, h6, h7, h8, h9, h10, h11, h12, h13, hr]

end Trading

namespace Trading

/-- Flat EMA-long line: the same value for the last 30 bars, with last
ADX equal to 20 (scenario S5). -/
def indFlatEma : IndicatorSet :=
  { adx := [some 20],
    ema_long := List.replicate 30 (some 100) }

/-- Witness for the amended C8 theorem: the flat-EMA, ADX = 20 instance
is rejected at the ranging-market rule. -/
theorem ranging_rejection_exact_condition_witness :
    firstFailIdx (ruleList sigRanging indFlatEma cfgDefault) =
      some rangingRuleIdx ∧
    (validate_signal sigRanging indFlatEma cfgDefault).passed = false := by
  have h := ranging_rejection_exact_condition sigRanging indFlatEma cfgDefault
    (by norm_num [rule_direction_missing, sigRanging])
    (by norm_num [rule_low_confidence, sigRanging, cfgDefault])
    (by norm_num [rule_missing_levels, sigRanging])
    (by norm_num [rule_long_sl_side, sigRanging])
    (by norm_num [rule_long_tp_side, sigRanging])
    (by norm_num [rule_short_sl_side, sigRanging])
    (by norm_num [rule_short_tp_side, sigRanging])
    (by norm_num [rule_zero_risk, sigRanging])
    (by norm_num [rule_low_rr, sigRanging, cfgDefault])
    (by norm_num [rule_rsi_overbought, sigRanging, indFlatEma, _last_valid])
    (by norm_num [rule_rsi_oversold, sigRanging, indFlatEma, _last_valid])
    (by norm_num [rule_stop_tight, sigRanging, indFlatEma, _last_valid])
    (by norm_num [rule_stop_wide, sigRanging, indFlatEma, _last_valid])
    (by norm_num [rule_crypto_choppy, sigRanging, indFlatEma, _last_valid,
      get_asset_class, OANDA_INSTRUMENTS, IG_INSTRUMENTS, List.lookup])
  have hr : rule_ranging_market sigRanging indFlatEma = true := by
    norm_num [rule_ranging_market, sigRanging, indFlatEma, _last_valid,
      List.replicate, List.filterMap_cons, id_eq, List.filterMap_nil,
      List.getD, List.getD_cons_zero, List.getD_cons_succ,
      List.length_cons, List.length_nil,
      (by decide : ((100:ℚ) != 0) = true)]
  exact ⟨h.1.mpr hr, h.2 hr⟩

end Trading

namespace Trading

/-- Valid state transitions
(src/bot/layer3_execution/order_state.py, TRANSITIONS).  Python sets
are rendered as lists; only membership matters. -/
def TRANSITIONS : OrderState → List OrderState
  | .pending => [.submitted, .cancelled, .error]
  | .submitted => [.partiallyFilled, .filled, .cancelled, .rejected, .error]
  | .partiallyFilled => [.filled, .cancelled, .error]
  | .filled => [.closed]
  | .cancelled => []
  | .rejected => []
  | .closed => []
  | .error => [.pending]

/-- Whether a transition to the target state is valid
(order_state.py, OrderStateMachine.can_transition). -/
def can_transition (s t : OrderState) : Bool :=
  (TRANSITIONS s).contains t

/-- Whether the state is terminal: no outgoing transitions
(order_state.py, OrderStateMachine.is_terminal). -/
def is_terminal (s : OrderState) : Bool :=
  (TRANSITIONS s).isEmpty

/-- One transition attempt (order_state.py,
OrderStateMachine.transition): the new machine state paired with
whether InvalidTransitionError was raised; on a raise the state is
unchanged.  The error message text is elided. -/
def fsm_transition (s t : OrderState) : OrderState × Bool :=
  if can_transition s t then (t, false) else (s, true)

/-- Whether the FSM accepts every adjacent transition of a state
sequence. -/
def validTrace : List OrderState → Bool
  | [] => true
  | [_] => true
  | a :: b :: rest => can_transition a b && validTrace (b :: rest)

/-- The transition table exactly as the claim states it: only
Pending to Submitted from Pending, and Error to Pending at most once
per order (the table itself cannot express the once-only bound). -/
def claimFsmTransitions : OrderState → List OrderState
  | .pending => [.submitted]
  | .submitted => [.partiallyFilled, .filled, .cancelled, .rejected, .error]
  | .partiallyFilled => [.filled, .cancelled, .error]
  | .filled => [.closed]
  | .error => [.pending]
  | _ => []

/-- C4 counterexample: the code also permits Pending to Cancelled
(absent from the claimed table), and nothing enforces the claimed
at-most-once bound on Error to Pending: the trace
pending, error, pending, error, pending with two recoveries is
accepted. -/
theorem fsm_extra_transitions_counterexample :
    can_transition .pending .cancelled = true ∧
    (claimFsmTransitions .pending).contains .cancelled = false ∧
    can_transition .pending .error = true ∧
    (claimFsmTransitions .pending).contains .error = false ∧
    validTrace [.pending, .error, .pending, .error, .pending] = true := by
  decide

/-- C4 (amended): the state machine permits exactly the transitions of
the source table — Pending to Submitted, Cancelled or Error;
Submitted to PartiallyFilled, Filled, Cancelled, Rejected or Error;
PartiallyFilled to Filled, Cancelled or Error; Filled to Closed;
Error to Pending (with no once-per-order bound) — the terminal states
Closed, Cancelled and Rejected admit no outgoing transitions, and any
other attempted transition raises without changing the state. -/
theorem order_fsm_exact_table :
    (∀ s t : OrderState, can_transition s t = true ↔
      (s, t) ∈ ([(.pending, .submitted), (.pending, .cancelled),
        (.pending, .error),
        (.submitted, .partiallyFilled), (.submitted, .filled),
        (.submitted, .cancelled), (.submitted, .rejected),
        (.submitted, .error),
        (.partiallyFilled, .filled), (.partiallyFilled, .cancelled),
        (.partiallyFilled, .error),
        (.filled, .closed),
        (.error, .pending)] : List (OrderState × OrderState))) ∧
    (∀ t : OrderState, can_transition .closed t = false ∧
      can_transition .cancelled t = false ∧
      can_transition .rejected t = false) ∧
    (∀ s t : OrderState,
      (can_transition s t = false → fsm_transition s t = (s, true)) ∧
      (can_transition s t = true → fsm_transition s t = (t, false))) := by
  refine ⟨by decide, by decide, ?_⟩
  intro s t
  constructor
  · intro h
    simp [fsm_transition, h]
  · intro h
    simp [fsm_transition, h]

end Trading

namespace Trading

/-- Witness for the amended C4 theorem: a valid transition moves the
state without raising; an attempt out of a terminal state raises and
leaves the state unchanged. -/
theorem order_fsm_exact_table_witness :
    fsm_transition .pending .submitted = (.submitted, false) ∧
    fsm_transition .closed .pending = (.closed, true) :=
  ⟨(order_fsm_exact_table.2.2 .pending .submitted).2 (by decide),
   (order_fsm_exact_table.2.2 .closed .pending).1 (by decide)⟩

end Trading

namespace Trading

/-- In-memory order model (src/bot/models.py, TradeOrder); only the
fields the embedded code reads are included. -/
structure TradeOrder where
  id : Option String := none
  signal_id : Option String := none
  exchange_order_id : Option String := none
  symbol : String
  direction : SignalDirection
  state : OrderState := .pending
  entry_price : ℚ
  stop_loss : ℚ
  take_profit_1 : ℚ
  take_profit_2 : Option ℚ := none
  take_profit_3 : Option ℚ := none
  quantity : ℚ := 0
  deriving DecidableEq, Repr

/-- Portfolio snapshot (src/bot/models.py, PortfolioState). -/
structure PortfolioState where
  total_equity : ℚ
  available_balance : ℚ
  open_positions : List TradeOrder := []
  daily_pnl : ℚ := 0
  daily_trades : ℕ := 0
  deriving DecidableEq, Repr

/-- Result of a risk check (src/bot/models.py, RiskCheckResult). -/
structure RiskCheckResult where
  approved : Bool
  reason : String
  deriving DecidableEq, Repr

/-- Mutable fields of RiskManager (src/bot/layer4_risk/manager.py,
RiskManager.__init__), as an explicit state record.  Dates are ISO
day strings, as produced by strftime in the source. -/
structure RiskManagerState where
  circuit_breaker_active : Bool := false
  circuit_breaker_reason : Option String := none
  circuit_breaker_tripped_date : Option String := none
  drawdown_breaker_active : Bool := false
  drawdown_breaker_reason : Option String := none
  deriving DecidableEq, Repr

/-- Database side effects performed by the embedded functions. -/
inductive DbEvent where
  | insertCircuitBreakerEvent (reason : String)
  deriving DecidableEq, Repr

/-- Quote-currency-to-USD table (src/bot/layer4_risk/manager.py,
_QUOTE_TO_USD). -/
def _QUOTE_TO_USD : List (String × ℚ) :=
  [("USD", 1), ("GBP", 63 / 50), ("EUR", 27 / 25), ("AUD", 13 / 20),
   ("NZD", 29 / 50), ("CAD", 37 / 50), ("CHF", 113 / 100),
   ("JPY", 67 / 10000)]

/-- Derived quote-currency-to-AUD table (manager.py, _QUOTE_TO_AUD):
each USD rate divided by the AUD rate. -/
def _QUOTE_TO_AUD : List (String × ℚ) :=
  _QUOTE_TO_USD.map (fun kv => (kv.1, kv.2 / (13 / 20)))

/-- USD-to-AUD rate (manager.py, _USD_TO_AUD). -/
def _USD_TO_AUD : ℚ := 1 / (13 / 20)

/-- Conversion rate from a quote currency to AUD (manager.py,
_quote_to_aud_rate): USDT, BUSD and USDC are USD-equivalent. -/
def _quote_to_aud_rate (quote_currency : String) : ℚ :=
  if quote_currency = "USDT" ∨ quote_currency = "BUSD" ∨
      quote_currency = "USDC" then _USD_TO_AUD
  else ((_QUOTE_TO_AUD.lookup quote_currency).getD _USD_TO_AUD)

/-- Per-asset-class correlation limits (manager.py,
_ASSET_CLASS_CORRELATION_LIMITS), with the dict .get default 4. -/
def correlation_limit : AssetClass → ℕ
  | .forex => 4
  | .index => 3
  | .commodity => 3
  | .bond => 1
  | .crypto => 4
  | .stock => 4

/-- The active (non-terminal) order states used by check_entry
(manager.py, active_states). -/
def active_states : List OrderState :=
  [.pending, .submitted, .filled, .partiallyFilled]

/-- Python str() of an optional id: "None" when missing. -/
def pyStr (o : Option String) : String := o.getD "None"

/-- Trip the daily circuit breaker (manager.py,
RiskManager._trip_circuit_breaker): records reason and trip date in
memory and logs; performs no database write. -/
def _trip_circuit_breaker (st : RiskManagerState) (reason today : String) :
    RiskManagerState :=
  { st with circuit_breaker_active := true,
            circuit_breaker_reason := some reason,
            circuit_breaker_tripped_date := some today }

/-- Reset the daily circuit breaker (manager.py,
RiskManager.reset_circuit_breaker). -/
def reset_circuit_breaker (st : RiskManagerState) : RiskManagerState :=
  { st with circuit_breaker_active := false,
            circuit_breaker_reason := none,
            circuit_breaker_tripped_date := none }

/-- Manual reset of the drawdown kill switch (manager.py,
RiskManager.reset_drawdown_breaker). -/
def reset_drawdown_breaker (st : RiskManagerState) : RiskManagerState :=
  { st with drawdown_breaker_active := false,
            drawdown_breaker_reason := none }

/-- Pre-trade admission check (manager.py, RiskManager.check_entry).
`today` is the current UTC date string.  Returns the check result, the
successor risk-manager state and the list of database writes performed
by the call — always empty: check_entry is synchronous and performs no
database access, in particular the daily breaker trip inserts no
circuit_breaker_events row.  Reason strings keep the identifying text
of the source but elide interpolated numbers. -/
def check_entry (cfg : Settings) (today : String) (signal : DivergenceSignal)
    (portfolio : PortfolioState) (broker_id : String)
    (st : RiskManagerState) :
    RiskCheckResult × RiskManagerState × List DbEvent :=
  let st :=
    if st.circuit_breaker_active ∧
        st.circuit_breaker_tripped_date ≠ some today then
      reset_circuit_breaker st
    else st
  if st.circuit_breaker_active then
    (⟨false, "Circuit breaker active: " ++ (st.circuit_breaker_reason.getD "")⟩,
      st, [])
  else if st.drawdown_breaker_active then
    (⟨false, "DRAWDOWN KILL SWITCH: " ++ (st.drawdown_breaker_reason.getD "")⟩,
      st, [])
  else if portfolio.total_equity > 0 ∧ portfolio.daily_pnl < 0 ∧
      |portfolio.daily_pnl| / portfolio.total_equity * 100 ≥
        cfg.max_daily_loss_pct then
    let reason := "Daily loss exceeds limit"
    let st := _trip_circuit_breaker st reason today
    (⟨false, st.circuit_breaker_reason.getD "Daily loss limit exceeded"⟩,
      st, [])
  else
    match portfolio.open_positions.find? (fun p =>
        active_states.contains p.state && p.symbol == signal.symbol) with
    | some p =>
        if (match signal.direction with
            | some d => p.direction != d
            | none => false) then
          (⟨true, "REVERSAL:" ++ pyStr p.id⟩, st, [])
        else
          (⟨false, "Already " ++ p.direction.value ++ " on " ++ signal.symbol⟩,
            st, [])
    | none =>
        let max_positions := cfg.get_max_open_positions broker_id
        let open_count := (portfolio.open_positions.filter (fun p =>
          active_states.contains p.state)).length
        if open_count ≥ max_positions then
          (⟨false, "Max open positions reached for " ++ broker_id⟩, st, [])
        else
          match signal.direction with
          | some d =>
              let signal_ac := get_asset_class signal.symbol
              let max_corr := correlation_limit signal_ac
              let same_class_same_dir :=
                (portfolio.open_positions.filter (fun p =>
                  active_states.contains p.state && p.direction == d &&
                    get_asset_class p.symbol == signal_ac)).length
              if same_class_same_dir ≥ max_corr then
                (⟨false, "Correlation limit reached"⟩, st, [])
              else (⟨true, "All risk checks passed"⟩, st, [])
          | none => (⟨true, "All risk checks passed"⟩, st, [])

/-- Peak-to-trough drawdown check (manager.py,
RiskManager._check_max_drawdown_for_broker).  `peak_from_db` is the
result of SELECT_PEAK_EQUITY_BY_BROKER; the Python `or` makes a 0 or
missing value fall back to starting equity.  On a trip this function
does insert a circuit_breaker_events row. -/
def _check_max_drawdown_for_broker (cfg : Settings) (st : RiskManagerState)
    (current_equity starting_eq : ℚ) (broker_id : String)
    (peak_from_db : Option ℚ) : RiskManagerState × List DbEvent :=
  if st.drawdown_breaker_active then (st, [])
  else
    let fetched :=
      match peak_from_db with
      | some p => if p = 0 then starting_eq else p
      | none => starting_eq
    let peak_equity := max fetched starting_eq
    if peak_equity > 0 ∧ current_equity < peak_equity then
      let drawdown_pct := (peak_equity - current_equity) / peak_equity * 100
      if drawdown_pct ≥ cfg.max_drawdown_pct then
        let reason := "[" ++ broker_id ++ "] equity below peak beyond limit"
        ({ st with drawdown_breaker_active := true,
                   drawdown_breaker_reason := some reason },
          [.insertCircuitBreakerEvent ("MAX DRAWDOWN: " ++ reason)])
      else (st, [])
    else (st, [])

/-- Truncation toward zero, Python int() on a float. -/
def pyInt (q : ℚ) : ℤ := if q ≥ 0 then ⌊q⌋ else ⌈q⌉

/-- ATR-based crypto position sizing (manager.py,
RiskManager._calculate_crypto_position_size). -/
def _calculate_crypto_position_size (cfg : Settings)
    (signal : DivergenceSignal) (portfolio : PortfolioState) : ℚ :=
  match signal.entry_price, signal.stop_loss with
  | some e, some sl =>
      let risk_amount := portfolio.total_equity * (cfg.max_position_pct / 100)
      let risk_per_unit := |e - sl|
      if risk_per_unit = 0 then 0
      else
        let position_size := risk_amount / risk_per_unit
        let max_notional := portfolio.total_equity * (10 / 100)
        let max_quantity := if e > 0 then max_notional / e else 0
        min position_size max_quantity
  | _, _ => 0

/-- Pip-based OANDA position sizing (manager.py,
RiskManager._calculate_oanda_position_size). -/
def _calculate_oanda_position_size (cfg : Settings)
    (signal : DivergenceSignal) (portfolio : PortfolioState) : ℚ :=
  match signal.entry_price, signal.stop_loss with
  | some e, some sl =>
      if e ≤ 0 then 0
      else
        let instrument := get_instrument signal.symbol
        let risk_amount :=
          portfolio.total_equity * (cfg.max_position_pct / 100)
        let stop_distance := |e - sl|
        let stop_pips := stop_distance / instrument.pip_size
        if stop_pips = 0 then 0
        else
          let pip_value_aud := instrument.pip_value_per_unit *
            ((_QUOTE_TO_AUD.lookup instrument.quote_currency).getD _USD_TO_AUD)
          let units := risk_amount / (stop_pips * pip_value_aud)
          let entry_aud := e *
            ((_QUOTE_TO_AUD.lookup instrument.quote_currency).getD _USD_TO_AUD)
          let max_units :=
            (portfolio.total_equity * instrument.max_leverage) / entry_aud
          let units := min units max_units
          (pyInt units : ℚ)
  | _, _ => 0

/-- Position sizing dispatch (manager.py,
RiskManager.calculate_position_size). -/
def calculate_position_size (cfg : Settings) (signal : DivergenceSignal)
    (portfolio : PortfolioState) : ℚ :=
  if is_oanda signal.symbol then
    _calculate_oanda_position_size cfg signal portfolio
  else _calculate_crypto_position_size cfg signal portfolio

end Trading

namespace Trading

/-- Scenario S4 portfolio: equity 10000, daily PnL -600 (6 percent
daily loss against the 5 percent limit). -/
def pfS4 : PortfolioState :=
  { total_equity := 10000, available_balance := 10000, daily_pnl := -600 }

/-- An empty healthy portfolio. -/
def pfHealthy : PortfolioState :=
  { total_equity := 10000, available_balance := 10000 }

/-- A risk-manager state tripped on 2025-01-01. -/
def stTrippedJan1 : RiskManagerState :=
  { circuit_breaker_active := true,
    circuit_breaker_reason := some "Daily loss exceeds limit",
    circuit_breaker_tripped_date := some "2025-01-01" }

/-- C5 counterexample: on the S4 daily-loss breach, check_entry trips
the daily breaker and rejects, but the call performs no database
write — in particular no circuit_breaker_events row is inserted at the
trip, contrary to the claim.  (The drawdown breaker, by contrast, does
insert such a row: see _check_max_drawdown_for_broker.) -/
theorem daily_trip_inserts_no_event :
    (check_entry cfgDefault "2025-01-01" sigLongOk pfS4 "binance" {}).1.approved
      = false ∧
    (check_entry cfgDefault "2025-01-01" sigLongOk pfS4 "binance"
      {}).2.1.circuit_breaker_active = true ∧
    (check_entry cfgDefault "2025-01-01" sigLongOk pfS4 "binance" {}).2.2
      = ([] : List DbEvent) := by
  refine ⟨?_, ?_, ?_⟩ <;>
    norm_num [check_entry, cfgDefault, sigLongOk, pfS4, reset_circuit_breaker,
      _trip_circuit_breaker, Settings.get_max_open_positions]

/-- C5 (amended): once check_entry observes a daily loss breach it
trips the daily breaker in memory (recording the trip date, inserting
no circuit_breaker_events row) and rejects; every subsequent admission
on the same UTC day is rejected with the breaker reason regardless of
the signal; at the first admission on a later UTC day the daily
breaker auto-resets and admission resumes; the drawdown kill switch
stays tripped across admissions until manual reset. -/
theorem daily_breaker_lifecycle (cfg : Settings) (broker : String) :
    (∀ (day : String) (sig : DivergenceSignal) (pf : PortfolioState)
        (st : RiskManagerState),
      st.circuit_breaker_active = false → st.drawdown_breaker_active = false →
      pf.total_equity > 0 → pf.daily_pnl < 0 →
      |pf.daily_pnl| / pf.total_equity * 100 ≥ cfg.max_daily_loss_pct →
      (check_entry cfg day sig pf broker st).1.approved = false ∧
      (check_entry cfg day sig pf broker st).2.1.circuit_breaker_active
        = true ∧
      (check_entry cfg day sig pf broker st).2.1.circuit_breaker_tripped_date
        = some day ∧
      (check_entry cfg day sig pf broker st).2.2 = []) ∧
    (∀ (day : String) (sig : DivergenceSignal) (pf : PortfolioState)
        (st : RiskManagerState),
      st.circuit_breaker_active = true →
      st.circuit_breaker_tripped_date = some day →
      (check_entry cfg day sig pf broker st).1.approved = false ∧
      (check_entry cfg day sig pf broker st).1.reason =
        "Circuit breaker active: " ++ (st.circuit_breaker_reason.getD "") ∧
      (check_entry cfg day sig pf broker st).2.1 = st) ∧
    (∀ (day1 day2 : String) (sig : DivergenceSignal) (pf : PortfolioState)
        (st : RiskManagerState),
      st.circuit_breaker_active = true →
      st.circuit_breaker_tripped_date = some day1 → day2 ≠ day1 →
      st.drawdown_breaker_active = false → pf.daily_pnl ≥ 0 →
      pf.open_positions = [] → 0 < cfg.get_max_open_positions broker →
      (check_entry cfg day2 sig pf broker st).1.approved = true ∧
      (check_entry cfg day2 sig pf broker st).2.1.circuit_breaker_active
        = false) ∧
    (∀ (day : String) (sig : DivergenceSignal) (pf : PortfolioState)
        (st : RiskManagerState),
      st.drawdown_breaker_active = true → st.circuit_breaker_active = false →
      (check_entry cfg day sig pf broker st).1.approved = false ∧
      (check_entry cfg day sig pf broker st).1.reason =
        "DRAWDOWN KILL SWITCH: " ++ (st.drawdown_breaker_reason.getD "") ∧
      (check_entry cfg day sig pf broker st).2.1.drawdown_breaker_active
        = true) := by
  refine ⟨?_, ?_, ?_, ?_⟩
  · intro day sig pf st hcb hdd heq hpnl hloss
    simp only [check_entry, hcb, Bool.false_eq_true, false_and, if_false,
      reduceIte, hdd, _trip_circuit_breaker]
    simp [if_pos (And.intro heq (And.intro hpnl hloss))]
  · intro day sig pf st hcb hdate
    simp [check_entry, hcb, hdate]
  · intro day1 day2 sig pf st hcb hdate hne hdd hpnl hpos hmax
    have hreset : st.circuit_breaker_tripped_date ≠ some day2 := by
      rw [hdate]
      intro hcontra
      exact hne (by injection hcontra with h; exact h.symm)
    simp only [check_entry, hcb, hreset, ne_eq, not_false_eq_true, and_true,
      true_and, if_true, reduceIte, reset_circuit_breaker]
    have hnotloss : ¬ (pf.total_equity > 0 ∧ pf.daily_pnl < 0 ∧
        |pf.daily_pnl| / pf.total_equity * 100 ≥ cfg.max_daily_loss_pct) := by
      intro h
      exact absurd h.2.1 (not_lt.mpr hpnl)
    simp only [hdd, Bool.false_eq_true, if_false, reduceIte, hnotloss,
      hpos, List.find?_nil, List.filter_nil, List.length_nil]
    have hcorr : ∀ ac : AssetClass, correlation_limit ac ≠ 0 := by
      intro ac
      cases ac <;> simp [correlation_limit]
    constructor
    · cases hsd : sig.direction <;>
        simp [hmax, Nat.not_le.mpr hmax, hcorr (get_asset_class sig.symbol)]
    · cases hsd : sig.direction <;>
        simp [hmax, Nat.not_le.mpr hmax, hcorr (get_asset_class sig.symbol)]
  · intro day sig pf st hdd hcb
    simp [check_entry, hcb, hdd]

end Trading

namespace Trading

/-- Witness for the amended C5 theorem: the S4 breach on 2025-01-01 is
rejected with the breaker tripped and no database write; on 2025-01-02
a healthy admission through the tripped state is approved again. -/
theorem daily_breaker_lifecycle_witness :
    ((check_entry cfgDefault "2025-01-01" sigLongOk pfS4 "binance"
        {}).1.approved = false ∧
      (check_entry cfgDefault "2025-01-01" sigLongOk pfS4 "binance"
        {}).2.2 = []) ∧
    (check_entry cfgDefault "2025-01-02" sigLongOk pfHealthy "binance"
      stTrippedJan1).1.approved = true := by
  have h := daily_breaker_lifecycle cfgDefault "binance"
  have ha := h.1 "2025-01-01" sigLongOk pfS4 {} rfl rfl
    (by norm_num [pfS4]) (by norm_num [pfS4])
    (by norm_num [pfS4, cfgDefault])
  have hc := h.2.2.1 "2025-01-01" "2025-01-02" sigLongOk pfHealthy
    stTrippedJan1 rfl rfl (by decide) rfl (by norm_num [pfHealthy]) rfl
    (by norm_num [Settings.get_max_open_positions, cfgDefault])
  exact ⟨⟨ha.1, ha.2.2.2⟩, hc.1⟩

end Trading

namespace Trading

/-- A row of the orders table as read back by the execution engine
(SELECT * in engine.py); numeric columns are rationals, nullable
columns Options, and enum-valued columns their serialised strings as
in the database. -/
structure OrderRow where
  id : String
  signal_id : Option String := none
  exchange_order_id : Option String := none
  symbol : String
  direction : String
  state : String
  entry_price : ℚ
  stop_loss : ℚ
  original_stop_loss : Option ℚ := none
  sl_trail_stage : Option ℕ := none
  tp_stage : Option ℕ := none
  take_profit_1 : ℚ
  take_profit_2 : Option ℚ := none
  take_profit_3 : Option ℚ := none
  quantity : ℚ
  remaining_quantity : Option ℚ := none
  filled_quantity : Option ℚ := none
  filled_price : Option ℚ := none
  pnl : Option ℚ := none
  fees : ℚ := 0
  broker : String := "binance"
  deriving DecidableEq, Repr

/-- Python `x or d` on an optional number: d when missing or zero. -/
def pyOr (o : Option ℚ) (d : ℚ) : ℚ :=
  match o with
  | some q => if q = 0 then d else q
  | none => d

/-- Effect of UPDATE_ORDER_FILL (src/bot/database/queries.py): set
state, filled_quantity and filled_price. -/
def applyOrderFill (r : OrderRow) (state : String) (qty price : ℚ) :
    OrderRow :=
  { r with state := state, filled_quantity := some qty,
           filled_price := some price }

/-- Effect of UPDATE_ORDER_CLOSE (queries.py): state closed, pnl,
fees, filled_price. -/
def applyOrderClose (r : OrderRow) (pnl fees price : ℚ) : OrderRow :=
  { r with state := "closed", pnl := some pnl, fees := fees,
           filled_price := some price }

/-- Modelled from the spec: effect of UPDATE_ORDER_STOP_LOSS.  The
query text is referenced by engine.py but missing from the snapshot of
queries.py; per spec §4.9 a trailing-stop update sets stop_loss and
the trail stage. -/
def applyOrderStopLoss (r : OrderRow) (new_sl : ℚ) (stage : ℕ) : OrderRow :=
  { r with stop_loss := new_sl, sl_trail_stage := some stage }

/-- Modelled from the spec: effect of UPDATE_ORDER_PARTIAL_CLOSE.  The
query text is referenced by engine.py but missing from the snapshot of
queries.py; per spec §4.9 a partial close updates remaining_quantity,
records the realised pnl and fees of the closed portion, sets tp_stage
and moves stop_loss. -/
def applyOrderPartialClose (r : OrderRow) (new_remaining pnl fees : ℚ)
    (stage : ℕ) (new_sl : ℚ) : OrderRow :=
  { r with remaining_quantity := some new_remaining, pnl := some pnl,
           fees := fees, tp_stage := some stage, stop_loss := new_sl }

/-- Net PnL and fees of a close (engine.py, ExecutionEngine._calc_pnl). -/
def _calc_pnl (direction : String) (entry_price exit_price quantity : ℚ)
    (inst : InstrumentInfo) : ℚ × ℚ :=
  let pnl :=
    if direction = "long" then (exit_price - entry_price) * quantity
    else (entry_price - exit_price) * quantity
  let fees :=
    if inst.fee_rate = 0 then 0
    else (entry_price * quantity + exit_price * quantity) * inst.fee_rate
  (pnl - fees, fees)

/-- Result of one monitor pass over one order row. -/
structure MonitorOutcome where
  row : OrderRow
  closed_count : ℕ
  partial_close : Option (ℚ × ℚ × ℚ × ℚ)
  full_close : Option (ℚ × ℚ × ℚ)
  deriving DecidableEq, Repr

/-- Stage-0 pre-TP1 trailing-stop block (engine.py,
monitor_open_positions, the `if partial_tp == 0` block): moves the
stop to breakeven at 50 percent progress toward TP1 and to entry plus
a quarter of the range at 75 percent. -/
def stage0_trailing (row : OrderRow) (direction : String)
    (entry_price take_profit_1 current_price : ℚ) : OrderRow :=
  let sl_trail_stage := row.sl_trail_stage.getD 0
  if row.original_stop_loss.isSome ∧ sl_trail_stage < 2 then
    let total_range := |take_profit_1 - entry_price|
    if total_range > 0 then
      let progress :=
        if direction = "long" then
          (current_price - entry_price) / total_range
        else (entry_price - current_price) / total_range
      if progress ≥ 3 / 4 ∧ sl_trail_stage < 2 then
        applyOrderStopLoss row
          (if direction = "long" then entry_price + (1 / 4) * total_range
           else entry_price - (1 / 4) * total_range) 2
      else if progress ≥ 1 / 2 ∧ sl_trail_stage < 1 then
        applyOrderStopLoss row entry_price 1
      else row
    else row
  else row

/-- Stage-1 trailing block toward TP2 (engine.py,
monitor_open_positions, the trailing part of the `tp_stage == 1`
branch): progress measured from entry toward TP2; the stop only moves
if it improves. -/
def stage1_trailing (row : OrderRow) (direction : String)
    (entry_price take_profit_1 tp2 current_price : ℚ) : OrderRow :=
  let tp2_range := |tp2 - entry_price|
  if tp2_range > 0 then
    let progress_to_tp2 :=
      if direction = "long" then (current_price - entry_price) / tp2_range
      else (entry_price - current_price) / tp2_range
    let tp1_level := take_profit_1
    let tp1_to_tp2 := |tp2 - tp1_level|
    if progress_to_tp2 ≥ 3 / 4 ∧ tp1_to_tp2 > 0 then
      let new_sl :=
        if direction = "long" then tp1_level + (1 / 4) * tp1_to_tp2
        else tp1_level - (1 / 4) * tp1_to_tp2
      if (direction = "long" ∧ new_sl > row.stop_loss) ∨
          (direction = "short" ∧ new_sl < row.stop_loss) then
        applyOrderStopLoss row new_sl 2
      else row
    else if progress_to_tp2 ≥ 1 / 2 then
      let new_sl := tp1_level
      if (direction = "long" ∧ new_sl > row.stop_loss) ∨
          (direction = "short" ∧ new_sl < row.stop_loss) then
        applyOrderStopLoss row new_sl 2
      else row
    else row
  else row

/-- Stage-0 handler (engine.py, monitor_open_positions, the
`tp_stage == 0` branch): optional pre-TP1 trailing when partial TP is
disabled, then stop-loss check (full close at the current price), then
TP1 check (partial close when tp1_close_pct is positive and TP2
present, else full close at the current price). -/
def monitor_stage0 (cfg : Settings) (row0 : OrderRow)
    (direction : String) (entry_price take_profit_1 remaining_qty
    current_price : ℚ) (inst : InstrumentInfo) : MonitorOutcome :=
  let partial_tp := cfg.tp1_close_pct
  let row :=
    if partial_tp = 0 then
      stage0_trailing row0 direction entry_price take_profit_1 current_price
    else row0
  let stop_loss := row.stop_loss
  let hit_sl :=
    if direction = "long" then current_price ≤ stop_loss
    else current_price ≥ stop_loss
  if hit_sl then
    let pf := _calc_pnl direction entry_price current_price remaining_qty inst
    ⟨applyOrderClose row pf.1 pf.2 current_price, 1, none,
      some (current_price, pf.1, pf.2)⟩
  else
    let hit_tp1 :=
      if direction = "long" then current_price ≥ take_profit_1
      else current_price ≤ take_profit_1
    if hit_tp1 then
      if partial_tp > 0 ∧ row.take_profit_2.isSome then
        let close_qty := remaining_qty * partial_tp
        let new_remaining := remaining_qty - close_qty
        let pf := _calc_pnl direction entry_price current_price close_qty inst
        let new_sl := entry_price
        ⟨applyOrderPartialClose row new_remaining pf.1 pf.2 1 new_sl,
          0, some (close_qty, current_price, pf.1, pf.2), none⟩
      else
        let pf := _calc_pnl direction entry_price current_price
          remaining_qty inst
        ⟨applyOrderClose row pf.1 pf.2 current_price, 1, none,
          some (current_price, pf.1, pf.2)⟩
    else ⟨row, 0, none, none⟩

/-- Stage-1 handler (engine.py, monitor_open_positions, the
`tp_stage == 1` branch): trailing toward TP2, stop-loss check on the
remainder, TP2 check. -/
def monitor_stage1 (row0 : OrderRow) (direction : String)
    (entry_price take_profit_1 tp2 remaining_qty current_price : ℚ)
    (inst : InstrumentInfo) : MonitorOutcome :=
  let row := stage1_trailing row0 direction entry_price take_profit_1 tp2
    current_price
  let stop_loss := row.stop_loss
  let hit_sl :=
    if direction = "long" then current_price ≤ stop_loss
    else current_price ≥ stop_loss
  if hit_sl then
    let pf := _calc_pnl direction entry_price current_price remaining_qty inst
    ⟨applyOrderClose row pf.1 pf.2 current_price, 1, none,
      some (current_price, pf.1, pf.2)⟩
  else
    let hit_tp2 :=
      if direction = "long" then current_price ≥ tp2
      else current_price ≤ tp2
    if hit_tp2 then
      let pf := _calc_pnl direction entry_price current_price
        remaining_qty inst
      ⟨applyOrderClose row pf.1 pf.2 current_price, 1, none,
        some (current_price, pf.1, pf.2)⟩
    else ⟨row, 0, none, none⟩

/-- One iteration of the position-monitor loop for a single open order
row at the current ticker price (engine.py,
ExecutionEngine.monitor_open_positions, loop body): simulated fill of
submitted orders, then the stage-0 or stage-1 handler.
`partial_close` carries (closed quantity, price, net pnl, fees) of a
partial close, `full_close` carries (price, net pnl, fees) of a full
close; `closed_count` is this row's contribution to the closed
counter. -/
def monitor_position_row (cfg : Settings) (row0 : OrderRow)
    (current_price : ℚ) : MonitorOutcome :=
  let direction := row0.direction
  let entry_price := row0.entry_price
  let take_profit_1 := row0.take_profit_1
  let tp_stage := row0.tp_stage.getD 0
  let quantity := row0.quantity
  let remaining_qty := pyOr row0.remaining_quantity quantity
  let row :=
    if row0.state = "submitted" then
      applyOrderFill row0 "filled" quantity entry_price
    else row0
  if row.state ≠ "filled" then ⟨row, 0, none, none⟩
  else
    let inst := get_instrument row.symbol
    if tp_stage = 0 then
      monitor_stage0 cfg row direction entry_price take_profit_1
        remaining_qty current_price inst
    else
      if tp_stage = 1 ∧ row.take_profit_2.isSome then
        monitor_stage1 row direction entry_price take_profit_1
          (row.take_profit_2.getD 0) remaining_qty current_price inst
      else ⟨row, 0, none, none⟩

end Trading

namespace Trading

/-- Python str.startswith, through the character-list model of
strings. -/
def pyStartswith (s pre : String) : Bool :=
  pre.data.isPrefixOf s.data

/-- Everything after the first occurrence of a separator character:
Python `s.split(sep, 1)[1]` for a string known to contain the
separator. -/
def py_split_rest (s : String) (sep : Char) : String :=
  String.mk ((s.data.dropWhile (fun c => c ≠ sep)).drop 1)

/-- Close an existing position for a reversal (engine.py,
ExecutionEngine._close_position_for_reversal): look the order up by
id, fetch the current price and close the order in the database at
that price with PnL net of fees.  On a missing row or a failed price
fetch the function returns with the database unchanged. -/
def _close_position_for_reversal (db : List OrderRow)
    (tickers : String → Option ℚ) (order_id symbol : String) :
    List OrderRow :=
  match db.find? (fun r => r.id == order_id) with
  | none => db
  | some row =>
      let entry_price := row.entry_price
      let quantity := pyOr row.remaining_quantity row.quantity
      let direction := row.direction
      match tickers symbol with
      | none => db
      | some exit_price =>
          let pnl :=
            if direction = "long" then (exit_price - entry_price) * quantity
            else (entry_price - exit_price) * quantity
          let inst := get_instrument symbol
          let fees :=
            if inst.fee_rate = 0 then 0
            else (entry_price * quantity + exit_price * quantity) *
              inst.fee_rate
          let pnl_net := pnl - fees
          db.map (fun r =>
            if r.id == order_id then applyOrderClose r pnl_net fees exit_price
            else r)

/-- The database row created by INSERT_ORDER (queries.py) for a new
order. -/
def insertOrderRow (new_id : String) (o : TradeOrder) (broker_id : String) :
    OrderRow :=
  { id := new_id, signal_id := o.signal_id,
    exchange_order_id := o.exchange_order_id, symbol := o.symbol,
    direction := o.direction.value, state := o.state.value,
    entry_price := o.entry_price, stop_loss := o.stop_loss,
    take_profit_1 := o.take_profit_1, take_profit_2 := o.take_profit_2,
    take_profit_3 := o.take_profit_3, quantity := o.quantity,
    broker := broker_id }

/-- Full signal-to-order pipeline (engine.py,
ExecutionEngine.execute_signal), in paper and dev modes; a live
submission is represented by `live_result` (the venue order id, or
none for an adapter failure).  `today` feeds the risk check,
`paper_order_id` stands for the synthesised paper id (which embeds the
wall-clock time in the source), `new_db_id` for the id the insert
returns.  Returns the order handed back to the caller (none on
rejection, zero sizing or submission failure), the database, the
portfolio and the successor risk state.  A signal whose direction or
price levels are missing after approval aborts the call (the source
raises building TradeOrder or computing the side), leaving the
reversal close, if any, already applied. -/
def execute_signal (cfg : Settings) (today : String) (st : RiskManagerState)
    (db : List OrderRow) (tickers : String → Option ℚ)
    (signal : DivergenceSignal) (portfolio : PortfolioState)
    (paper_order_id new_db_id : String) (live_result : Option String) :
    Option TradeOrder × List OrderRow × PortfolioState × RiskManagerState :=
  let broker_id := (route_symbol signal.symbol).value
  let risk_out := check_entry cfg today signal portfolio broker_id st
  let risk_result := risk_out.1
  let st := risk_out.2.1
  if ¬ risk_result.approved then (none, db, portfolio, st)
  else
    let reversal := pyStartswith risk_result.reason "REVERSAL:"
    let old_order_id := py_split_rest risk_result.reason ':'
    let db :=
      if reversal then
        _close_position_for_reversal db tickers old_order_id signal.symbol
      else db
    let kept := portfolio.open_positions.filter
      (fun p => pyStr p.id != old_order_id)
    let portfolio :=
      if reversal then { portfolio with open_positions := kept }
      else portfolio
    let quantity := calculate_position_size cfg signal portfolio
    if quantity ≤ 0 then (none, db, portfolio, st)
    else
      match signal.direction, signal.entry_price, signal.stop_loss,
          signal.take_profit_1 with
      | some d, some e, some sl, some tp1 =>
          let order : TradeOrder :=
            { symbol := signal.symbol, direction := d, entry_price := e,
              stop_loss := sl, take_profit_1 := tp1,
              take_profit_2 := signal.take_profit_2,
              take_profit_3 := signal.take_profit_3, quantity := quantity,
              signal_id := none }
          match cfg.trading_mode with
          | .dev => (some order, db, portfolio, st)
          | .paper =>
              let order := { order with
                exchange_order_id := some paper_order_id,
                state := OrderState.submitted }
              let order := { order with id := some new_db_id }
              (some order,
                db ++ [insertOrderRow new_db_id order broker_id],
                portfolio, st)
          | .live =>
              match live_result with
              | some venue_id =>
                  let order := { order with
                    exchange_order_id := some venue_id,
                    state := OrderState.submitted }
                  let order := { order with id := some new_db_id }
                  (some order,
                    db ++ [insertOrderRow new_db_id order broker_id],
                    portfolio, st)
              | none =>
                  let order := { order with state := OrderState.error }
                  (none, db ++ [insertOrderRow new_db_id order broker_id],
                    portfolio, st)
      | _, _, _, _ => (none, db, portfolio, st)

end Trading

namespace Trading

theorem stage0_trailing_fields (row : OrderRow) (direction : String)
    (e tp1 price : ℚ) :
    (stage0_trailing row direction e tp1 price).state = row.state ∧
    (stage0_trailing row direction e tp1 price).take_profit_2 =
      row.take_profit_2 ∧
    ((stage0_trailing row direction e tp1 price).stop_loss = row.stop_loss ∨
     (stage0_trailing row direction e tp1 price).stop_loss = e ∨
     (stage0_trailing row direction e tp1 price).stop_loss =
       e + 1 / 4 * |tp1 - e| ∨
     (stage0_trailing row direction e tp1 price).stop_loss =
       e - 1 / 4 * |tp1 - e|) := by
  unfold stage0_trailing
  split_ifs <;> simp [applyOrderStopLoss] <;> split_ifs <;> simp

theorem monitor_filled_stage0 (cfg : Settings) (row : OrderRow) (price : ℚ)
    (hst : row.state = "filled") (htps : row.tp_stage.getD 0 = 0) :
    monitor_position_row cfg row price =
      monitor_stage0 cfg row row.direction row.entry_price
        row.take_profit_1 (pyOr row.remaining_quantity row.quantity) price
        (get_instrument row.symbol) := by
  simp [monitor_position_row, hst, htps]

/-- C2 (amended): one monitor pass over a Filled order at tp_stage 0
whose ticker price reaches TP1.  When tp1_close_pct is positive and a
TP2 is present, it closes tp1_close_pct of the remaining quantity at
the current price, sets remaining_quantity to the residual, moves the
stop to entry (breakeven), sets tp_stage to 1 and does not close the
order; otherwise it closes the whole remainder at the current ticker
price (not at the TP1 level) and the order transitions to Closed. -/
theorem tp1_monitor_behavior (cfg : Settings) (row : OrderRow) (price : ℚ)
    (hst : row.state = "filled") (htps : row.tp_stage.getD 0 = 0)
    (hside :
      (row.direction = "long" ∧ row.stop_loss < row.entry_price ∧
        row.entry_price < row.take_profit_1 ∧ row.take_profit_1 ≤ price) ∨
      (row.direction = "short" ∧ row.take_profit_1 < row.entry_price ∧
        row.entry_price < row.stop_loss ∧ price ≤ row.take_profit_1)) :
    (cfg.tp1_close_pct > 0 ∧ row.take_profit_2.isSome →
      monitor_position_row cfg row price =
        ⟨applyOrderPartialClose row
          (pyOr row.remaining_quantity row.quantity -
            pyOr row.remaining_quantity row.quantity * cfg.tp1_close_pct)
          (_calc_pnl row.direction row.entry_price price
            (pyOr row.remaining_quantity row.quantity * cfg.tp1_close_pct)
            (get_instrument row.symbol)).1
          (_calc_pnl row.direction row.entry_price price
            (pyOr row.remaining_quantity row.quantity * cfg.tp1_close_pct)
            (get_instrument row.symbol)).2
          1 row.entry_price,
         0,
         some (pyOr row.remaining_quantity row.quantity * cfg.tp1_close_pct,
           price,
           (_calc_pnl row.direction row.entry_price price
             (pyOr row.remaining_quantity row.quantity * cfg.tp1_close_pct)
             (get_instrument row.symbol)).1,
           (_calc_pnl row.direction row.entry_price price
             (pyOr row.remaining_quantity row.quantity * cfg.tp1_close_pct)
             (get_instrument row.symbol)).2),
         none⟩) ∧
    (¬ (cfg.tp1_close_pct > 0 ∧ row.take_profit_2.isSome) →
      (monitor_position_row cfg row price).row.state = "closed" ∧
      (monitor_position_row cfg row price).closed_count = 1 ∧
      (monitor_position_row cfg row price).full_close =
        some (price,
          (_calc_pnl row.direction row.entry_price price
            (pyOr row.remaining_quantity row.quantity)
            (get_instrument row.symbol)).1,
          (_calc_pnl row.direction row.entry_price price
            (pyOr row.remaining_quantity row.quantity)
            (get_instrument row.symbol)).2)) := by
  rw [monitor_filled_stage0 cfg row price hst htps]
  constructor
  · rintro ⟨hpct, htp2⟩
    have hpz : ¬ (cfg.tp1_close_pct = 0) := hpct.ne'
    rcases hside with ⟨hdir, hsl, he, hhit⟩ | ⟨hdir, htp, he, hhit⟩
    · have hq1 : ¬ price ≤ row.stop_loss := by linarith
      simp [monitor_stage0, hdir, hpz, hq1, hhit, hpct, htp2, ge_iff_le]
    · have hq1 : ¬ row.stop_loss ≤ price := by linarith
      simp [monitor_stage0, hdir, hpz, hq1, hhit, hpct, htp2, ge_iff_le]
  · intro hneg
    rcases hside with ⟨hdir, hsl, he, hhit⟩ | ⟨hdir, htp, he, hhit⟩
    · have habs : |row.take_profit_1 - row.entry_price| =
          row.take_profit_1 - row.entry_price := abs_of_pos (by linarith)
      by_cases hpz : cfg.tp1_close_pct = 0
      · obtain ⟨hs1, hs2, hs3⟩ := stage0_trailing_fields row row.direction
          row.entry_price row.take_profit_1 price
        have hq1 : ¬ price ≤ (stage0_trailing row row.direction
            row.entry_price row.take_profit_1 price).stop_loss := by
          rcases hs3 with h | h | h | h <;> rw [h] <;> rw [habs] at * <;>
            linarith
        simp [monitor_stage0, hdir, hpz, hq1, hhit, hneg, ge_iff_le, hs1,
          applyOrderClose]
      · have hq1 : ¬ price ≤ row.stop_loss := by linarith
        simp [monitor_stage0, hdir, hpz, hq1, hhit, hneg, ge_iff_le,
          applyOrderClose]
    · have habs : |row.take_profit_1 - row.entry_price| =
          -(row.take_profit_1 - row.entry_price) := abs_of_neg (by linarith)
      by_cases hpz : cfg.tp1_close_pct = 0
      · obtain ⟨hs1, hs2, hs3⟩ := stage0_trailing_fields row row.direction
          row.entry_price row.take_profit_1 price
        have hq1 : ¬ (stage0_trailing row row.direction
            row.entry_price row.take_profit_1 price).stop_loss ≤ price := by
          rcases hs3 with h | h | h | h <;> rw [h] <;> rw [habs] at * <;>
            linarith
        simp [monitor_stage0, hdir, hpz, hq1, hhit, hneg, ge_iff_le, hs1,
          applyOrderClose]
      · have hq1 : ¬ row.stop_loss ≤ price := by linarith
        simp [monitor_stage0, hdir, hpz, hq1, hhit, hneg, ge_iff_le,
          applyOrderClose]

end Trading

namespace Trading

/-- Scenario S2 order row: Long ETH at 100, quantity 10, SL 90,
TP1 120, TP2 140, filled, stage 0. -/
def rowS2 : OrderRow :=
  { id := "ord-s2", symbol := "ETH/USDT", direction := "long",
    state := "filled", entry_price := 100, stop_loss := 90,
    take_profit_1 := 120, take_profit_2 := some 140, quantity := 10 }

/-- The S2 order without a TP2 (full close path at TP1). -/
def rowS2NoTp2 : OrderRow :=
  { id := "ord-s2b", symbol := "ETH/USDT", direction := "long",
    state := "filled", entry_price := 100, stop_loss := 90,
    take_profit_1 := 120, quantity := 10 }

/-- C2 counterexample: with no TP2 the whole remainder is closed at
the current ticker price 122, not at the TP1 level 120 as the claim
states: the recorded exit price is 122 and the PnL is computed from
122. -/
theorem tp1_full_close_at_ticker_counterexample :
    (monitor_position_row cfgDefault rowS2NoTp2 122).row.state = "closed" ∧
    (monitor_position_row cfgDefault rowS2NoTp2 122).full_close =
      some (122, 220 - 111 / 50, 111 / 50) ∧
    (monitor_position_row cfgDefault rowS2NoTp2 122).row.filled_price =
      some 122 ∧
    (122 : ℚ) ≠ 120 := by
  refine ⟨?_, ?_, ?_, by norm_num⟩ <;>
    norm_num [monitor_position_row, monitor_stage0, stage0_trailing,
      applyOrderClose, _calc_pnl, pyOr, rowS2NoTp2, cfgDefault,
      (show (get_instrument "ETH/USDT").fee_rate = (1 / 1000 : ℚ) from rfl),
      (show ("filled" : String) ≠ "submitted" by decide)]

/-- Witness for the amended C2 theorem on the S2 instance: ticker 122,
tp1_close_pct one half: 5 units closed at 122, remaining 5, stop moved
to 100 (breakeven), tp_stage 1, order not closed; PnL on the closed
portion is (122 - 100) x 5 = 110 minus fees 1.11. -/
theorem tp1_monitor_behavior_witness :
    (monitor_position_row cfgDefault rowS2 122).row.remaining_quantity
      = some 5 ∧
    (monitor_position_row cfgDefault rowS2 122).row.stop_loss = 100 ∧
    (monitor_position_row cfgDefault rowS2 122).row.tp_stage = some 1 ∧
    (monitor_position_row cfgDefault rowS2 122).row.state = "filled" ∧
    (monitor_position_row cfgDefault rowS2 122).closed_count = 0 ∧
    (monitor_position_row cfgDefault rowS2 122).partial_close =
      some (5, 122, 110 - 111 / 100, 111 / 100) := by
  have h := (tp1_monitor_behavior cfgDefault rowS2 122 rfl rfl
    (Or.inl (by norm_num [rowS2]))).1
    (by norm_num [cfgDefault, rowS2])
  rw [h]
  norm_num [applyOrderPartialClose, rowS2, pyOr, _calc_pnl, cfgDefault,
    (show (get_instrument "ETH/USDT").fee_rate = (1 / 1000 : ℚ) from rfl)]

end Trading

namespace Trading

theorem pyStartswith_append (pre s : String) :
    pyStartswith (pre ++ s) pre = true := by
  simp [pyStartswith, String.data_append, List.isPrefixOf_iff_prefix,
    List.prefix_append]

theorem py_split_rest_reversal (x : String) :
    py_split_rest ("REVERSAL:" ++ x) ':' = x := by
  have hdata : ("REVERSAL:" ++ x).data = "REVERSAL:".data ++ x.data :=
    String.data_append _ _
  simp only [py_split_rest, hdata]
  have hchars : ("REVERSAL:".data : List Char) =
      ['R', 'E', 'V', 'E', 'R', 'S', 'A', 'L', ':'] := rfl
  simp [List.dropWhile]

end Trading

namespace Trading

/-- C3: with exactly one active position p on the signal symbol and a
healthy risk state, a same-direction signal is rejected as already
positioned, while an opposite-direction signal is approved with reason
REVERSAL:<order id>, upon which execute_signal (paper mode) closes the
old row at the current ticker price with PnL net of fees, removes it
from the in-memory portfolio, and submits the new order — leaving
exactly two orders for the symbol, the old one Closed and the new one
Submitted. -/
theorem reversal_close_then_open (cfg : Settings) (today : String)
    (st : RiskManagerState) (sig : DivergenceSignal) (p : TradeOrder)
    (old : OrderRow) (oldId : String) (tickers : String → Option ℚ)
    (portfolio : PortfolioState) (d : SignalDirection) (e sl tp1 exitp : ℚ)
    (paper_order_id new_db_id : String)
    (hmode : cfg.trading_mode = .paper)
    (hcb : st.circuit_breaker_active = false)
    (hdd : st.drawdown_breaker_active = false)
    (hdpnl : portfolio.daily_pnl ≥ 0)
    (heq : portfolio.total_equity > 0)
    (hpct : cfg.max_position_pct > 0)
    (hdir : sig.direction = some d)
    (he : sig.entry_price = some e) (hsl : sig.stop_loss = some sl)
    (htp1 : sig.take_profit_1 = some tp1)
    (he0 : e > 0) (hes : e ≠ sl)
    (hoanda : is_oanda sig.symbol = false)
    (hpf : portfolio.open_positions = [p])
    (hactive : active_states.contains p.state = true)
    (hsym : p.symbol = sig.symbol)
    (hpid : p.id = some oldId) (holdid : old.id = oldId) :
    (p.direction = d →
      (check_entry cfg today sig portfolio
        ((route_symbol sig.symbol).value) st).1 =
          ⟨false, "Already " ++ d.value ++ " on " ++ sig.symbol⟩ ∧
      execute_signal cfg today st [old] tickers sig portfolio
        paper_order_id new_db_id none = (none, [old], portfolio, st)) ∧
    (p.direction ≠ d → tickers sig.symbol = some exitp →
      (check_entry cfg today sig portfolio
        ((route_symbol sig.symbol).value) st).1 =
          ⟨true, "REVERSAL:" ++ oldId⟩ ∧
      execute_signal cfg today st [old] tickers sig portfolio
        paper_order_id new_db_id none =
        (some { symbol := sig.symbol, direction := d, entry_price := e,
                stop_loss := sl, take_profit_1 := tp1,
                take_profit_2 := sig.take_profit_2,
                take_profit_3 := sig.take_profit_3,
                quantity := calculate_position_size cfg sig
                  { portfolio with open_positions := [] },
                signal_id := none,
                exchange_order_id := some paper_order_id,
                state := OrderState.submitted, id := some new_db_id },
         [applyOrderClose old
            ((if old.direction = "long" then
                (exitp - old.entry_price) *
                  pyOr old.remaining_quantity old.quantity
              else
                (old.entry_price - exitp) *
                  pyOr old.remaining_quantity old.quantity) -
              (if (get_instrument sig.symbol).fee_rate = 0 then 0
               else (old.entry_price * pyOr old.remaining_quantity old.quantity
                  + exitp * pyOr old.remaining_quantity old.quantity) *
                  (get_instrument sig.symbol).fee_rate))
            (if (get_instrument sig.symbol).fee_rate = 0 then 0
             else (old.entry_price * pyOr old.remaining_quantity old.quantity
                + exitp * pyOr old.remaining_quantity old.quantity) *
                (get_instrument sig.symbol).fee_rate)
            exitp,
          insertOrderRow new_db_id
            { symbol := sig.symbol, direction := d, entry_price := e,
              stop_loss := sl, take_profit_1 := tp1,
              take_profit_2 := sig.take_profit_2,
              take_profit_3 := sig.take_profit_3,
              quantity := calculate_position_size cfg sig
                { portfolio with open_positions := [] },
              signal_id := none,
              exchange_order_id := some paper_order_id,
              state := OrderState.submitted, id := some new_db_id }
            ((route_symbol sig.symbol).value)],
         { portfolio with open_positions := [] }, st)) := by
  have hnodaily : ¬ (portfolio.total_equity > 0 ∧ portfolio.daily_pnl < 0 ∧
      |portfolio.daily_pnl| / portfolio.total_equity * 100 ≥
        cfg.max_daily_loss_pct) := by
    rintro ⟨-, h2, -⟩
    exact absurd h2 (not_lt.mpr hdpnl)
  have hqpos : 0 < calculate_position_size cfg sig
      { portfolio with open_positions := [] } := by
    have habs : |e - sl| ≠ 0 := by
      simpa [abs_ne_zero] using sub_ne_zero.mpr hes
    have habs2 : (0 : ℚ) < |e - sl| := abs_pos.mpr (sub_ne_zero.mpr hes)
    simp only [calculate_position_size, hoanda, Bool.false_eq_true,
      if_false, reduceIte, _calculate_crypto_position_size, he, hsl]
    rw [if_neg habs]
    apply lt_min
    · exact div_pos (mul_pos heq (by positivity)) habs2
    · rw [if_pos he0]
      exact div_pos (mul_pos heq (by norm_num)) he0
  constructor
  · intro hsame
    have hcheck : check_entry cfg today sig portfolio
        ((route_symbol sig.symbol).value) st =
        (⟨false, "Already " ++ d.value ++ " on " ++ sig.symbol⟩, st, []) := by
      have hmem : p.state ∈ active_states := by simpa using hactive
      simp [check_entry, hcb, hdd, hnodaily, hpf, hactive, hmem, hsym, hdir,
        hsame, List.find?]
    refine ⟨by rw [hcheck], ?_⟩
    simp [execute_signal, hcheck]
  · intro hne htick
    have hcheck : check_entry cfg today sig portfolio
        ((route_symbol sig.symbol).value) st =
        (⟨true, "REVERSAL:" ++ oldId⟩, st, []) := by
      have hmem : p.state ∈ active_states := by simpa using hactive
      simp [check_entry, hcb, hdd, hnodaily, hpf, hactive, hmem, hsym, hdir,
        hne, List.find?, pyStr, hpid]
    refine ⟨by rw [hcheck], ?_⟩
    have hclose : _close_position_for_reversal [old] tickers oldId
        sig.symbol =
        [applyOrderClose old
          ((if old.direction = "long" then
              (exitp - old.entry_price) *
                pyOr old.remaining_quantity old.quantity
            else
              (old.entry_price - exitp) *
                pyOr old.remaining_quantity old.quantity) -
            (if (get_instrument sig.symbol).fee_rate = 0 then 0
             else (old.entry_price * pyOr old.remaining_quantity old.quantity
                + exitp * pyOr old.remaining_quantity old.quantity) *
                (get_instrument sig.symbol).fee_rate))
          (if (get_instrument sig.symbol).fee_rate = 0 then 0
           else (old.entry_price * pyOr old.remaining_quantity old.quantity
              + exitp * pyOr old.remaining_quantity old.quantity) *
              (get_instrument sig.symbol).fee_rate)
          exitp] := by
      simp [_close_position_for_reversal, List.find?, holdid, htick]
    simp only [execute_signal, hcheck]
    simp only [pyStartswith_append, py_split_rest_reversal, if_true,
      reduceIte, Bool.not_true, Bool.false_eq_true, if_false]
    simp only [hclose, hpf]
    have hfilter : [p].filter (fun q => pyStr q.id != oldId) = [] := by
      simp [List.filter, pyStr, hpid]
    simp only [List.filter_cons, List.filter_nil]
    simp only [pyStr, hpid, Option.getD_some, bne_self_eq_false,
      Bool.false_eq_true, if_false, reduceIte]
    simp only [hdir, he, hsl, htp1, hmode]
    simp [not_le.mpr hqpos]

end Trading

namespace Trading

/-- Scenario S1 open Long position (in-memory). -/
def pS1 : TradeOrder :=
  { id := some "ord-1", symbol := "BTC/USDT", direction := .long,
    state := .filled, entry_price := 100, stop_loss := 95,
    take_profit_1 := 110, quantity := 10 }

/-- Scenario S1 open Long order row (database). -/
def oldS1 : OrderRow :=
  { id := "ord-1", symbol := "BTC/USDT", direction := "long",
    state := "filled", entry_price := 100, stop_loss := 95,
    take_profit_1 := 110, quantity := 10 }

/-- Scenario S1 portfolio: equity 10000, one open Long. -/
def pfS1 : PortfolioState :=
  { total_equity := 10000, available_balance := 10000,
    open_positions := [pS1] }

/-- Scenario S1 validated Short signal on the same symbol. -/
def sigS1 : DivergenceSignal :=
  { divergence_detected := true, confidence := 9 / 10,
    direction := some .short, entry_price := some 102,
    stop_loss := some 107, take_profit_1 := some 92,
    symbol := "BTC/USDT", timeframe := "1h" }

/-- Scenario S1 ticker: BTC/USDT trades at 102. -/
def tickersS1 : String → Option ℚ :=
  fun s => if s = "BTC/USDT" then some 102 else none

/-- Witness for C3 on scenario S1: admission returns REVERSAL:ord-1;
after execute_signal exactly two orders exist for the symbol, the old
one closed at 102 with PnL (102 - 100) x 10 minus fees 2.02, the new
one submitted short; the in-memory portfolio no longer holds the old
position. -/
theorem reversal_close_then_open_witness :
    (check_entry cfgDefault "2025-01-01" sigS1 pfS1 "binance" {}).1 =
      ⟨true, "REVERSAL:ord-1"⟩ ∧
    ((execute_signal cfgDefault "2025-01-01" {} [oldS1] tickersS1 sigS1
      pfS1 "paper-1" "ord-2" none).2.1.map (fun r => (r.symbol, r.state))) =
      [("BTC/USDT", "closed"), ("BTC/USDT", "submitted")] ∧
    ((execute_signal cfgDefault "2025-01-01" {} [oldS1] tickersS1 sigS1
      pfS1 "paper-1" "ord-2" none).2.1.map (fun r => r.pnl)) =
      [some (20 - 101 / 50), none] ∧
    (execute_signal cfgDefault "2025-01-01" {} [oldS1] tickersS1 sigS1
      pfS1 "paper-1" "ord-2" none).2.2.1.open_positions = [] := by
  have h := reversal_close_then_open cfgDefault "2025-01-01" {} sigS1 pS1
    oldS1 "ord-1" tickersS1 pfS1 .short 102 107 92 102 "paper-1" "ord-2"
    rfl rfl rfl (by norm_num [pfS1]) (by norm_num [pfS1])
    (by norm_num [cfgDefault]) rfl rfl rfl rfl (by norm_num)
    (by norm_num) (by decide) rfl (by decide) rfl rfl rfl
  have h2 := h.2 (by decide) (by decide)
  have hroute : (route_symbol "BTC/USDT").value = "binance" := by decide
  refine ⟨?_, ?_, ?_, ?_⟩
  · have := h2.1
    simpa [sigS1, hroute] using this
  · rw [h2.2]
    simp [insertOrderRow, applyOrderClose, oldS1, sigS1, SignalDirection.value,
      OrderState.value]
  · rw [h2.2]
    norm_num [insertOrderRow, applyOrderClose, oldS1, sigS1, pyOr,
      (show (get_instrument "BTC/USDT").fee_rate = (1 / 1000 : ℚ) from rfl)]
  · rw [h2.2]

end Trading

namespace Trading

/-- C10: on a REVERSAL-approved admission, execute_signal closes the
referenced position before position sizing runs; if sizing then
returns a non-positive quantity the call returns null and creates no
new order, while the old position stays closed — the reversal close is
not rolled back. -/
theorem reversal_close_precedes_sizing (cfg : Settings) (today : String)
    (st : RiskManagerState) (sig : DivergenceSignal) (p : TradeOrder)
    (old : OrderRow) (oldId : String) (tickers : String → Option ℚ)
    (portfolio : PortfolioState) (d : SignalDirection) (exitp : ℚ)
    (paper_order_id new_db_id : String)
    (hcb : st.circuit_breaker_active = false)
    (hdd : st.drawdown_breaker_active = false)
    (hdpnl : portfolio.daily_pnl ≥ 0)
    (hdir : sig.direction = some d)
    (hpf : portfolio.open_positions = [p])
    (hactive : active_states.contains p.state = true)
    (hsym : p.symbol = sig.symbol)
    (hpid : p.id = some oldId) (holdid : old.id = oldId)
    (hne : p.direction ≠ d) (htick : tickers sig.symbol = some exitp)
    (hqz : calculate_position_size cfg sig
      { portfolio with open_positions := [] } ≤ 0) :
    execute_signal cfg today st [old] tickers sig portfolio
      paper_order_id new_db_id none =
      (none,
       [applyOrderClose old
          ((if old.direction = "long" then
              (exitp - old.entry_price) *
                pyOr old.remaining_quantity old.quantity
            else
              (old.entry_price - exitp) *
                pyOr old.remaining_quantity old.quantity) -
            (if (get_instrument sig.symbol).fee_rate = 0 then 0
             else (old.entry_price * pyOr old.remaining_quantity old.quantity
                + exitp * pyOr old.remaining_quantity old.quantity) *
                (get_instrument sig.symbol).fee_rate))
          (if (get_instrument sig.symbol).fee_rate = 0 then 0
           else (old.entry_price * pyOr old.remaining_quantity old.quantity
              + exitp * pyOr old.remaining_quantity old.quantity) *
              (get_instrument sig.symbol).fee_rate)
          exitp,
        ],
       { portfolio with open_positions := [] }, st) := by
  have hnodaily : ¬ (portfolio.total_equity > 0 ∧ portfolio.daily_pnl < 0 ∧
      |portfolio.daily_pnl| / portfolio.total_equity * 100 ≥
        cfg.max_daily_loss_pct) := by
    rintro ⟨-, h2, -⟩
    exact absurd h2 (not_lt.mpr hdpnl)
  have hcheck : check_entry cfg today sig portfolio
      ((route_symbol sig.symbol).value) st =
      (⟨true, "REVERSAL:" ++ oldId⟩, st, []) := by
    have hmem : p.state ∈ active_states := by simpa using hactive
    simp [check_entry, hcb, hdd, hnodaily, hpf, hactive, hmem, hsym, hdir,
      hne, List.find?, pyStr, hpid]
  have hclose : _close_position_for_reversal [old] tickers oldId
      sig.symbol =
      [applyOrderClose old
        ((if old.direction = "long" then
            (exitp - old.entry_price) *
              pyOr old.remaining_quantity old.quantity
          else
            (old.entry_price - exitp) *
              pyOr old.remaining_quantity old.quantity) -
          (if (get_instrument sig.symbol).fee_rate = 0 then 0
           else (old.entry_price * pyOr old.remaining_quantity old.quantity
              + exitp * pyOr old.remaining_quantity old.quantity) *
              (get_instrument sig.symbol).fee_rate))
        (if (get_instrument sig.symbol).fee_rate = 0 then 0
         else (old.entry_price * pyOr old.remaining_quantity old.quantity
            + exitp * pyOr old.remaining_quantity old.quantity) *
            (get_instrument sig.symbol).fee_rate)
        exitp] := by
    simp [_close_position_for_reversal, List.find?, holdid, htick]
  simp only [execute_signal, hcheck]
  simp only [pyStartswith_append, py_split_rest_reversal, if_true,
    reduceIte, Bool.not_true, Bool.false_eq_true, if_false]
  simp only [hclose, hpf, List.filter_cons, List.filter_nil]
  simp only [pyStr, hpid, Option.getD_some, bne_self_eq_false,
    Bool.false_eq_true, if_false, reduceIte]
  simp [hqz]

/-- A reversal scenario with zero equity so that sizing returns 0. -/
def pfS1Zero : PortfolioState :=
  { total_equity := 0, available_balance := 0, open_positions := [pS1] }

/-- Witness for C10: with zero equity the Short reversal signal closes
the old Long (PnL 20 minus fees 2.02) and no new order is placed. -/
theorem reversal_close_precedes_sizing_witness :
    (execute_signal cfgDefault "2025-01-01" {} [oldS1] tickersS1 sigS1
      pfS1Zero "paper-1" "ord-2" none).1 = none ∧
    ((execute_signal cfgDefault "2025-01-01" {} [oldS1] tickersS1 sigS1
      pfS1Zero "paper-1" "ord-2" none).2.1.map
        (fun r => (r.state, r.pnl))) = [("closed", some (20 - 101 / 50))] := by
  have h := reversal_close_precedes_sizing cfgDefault "2025-01-01" {} sigS1
    pS1 oldS1 "ord-1" tickersS1 pfS1Zero .short 102 "paper-1" "ord-2"
    rfl rfl (by norm_num [pfS1Zero]) rfl rfl (by decide) rfl rfl rfl
    (by decide) (by decide)
    (by norm_num [calculate_position_size, _calculate_crypto_position_size,
      sigS1, pfS1Zero, (show is_oanda "BTC/USDT" = false from rfl)])
  rw [h]
  norm_num [applyOrderClose, oldS1, sigS1, pyOr,
    (show (get_instrument "BTC/USDT").fee_rate = (1 / 1000 : ℚ) from rfl)]

end Trading

namespace Trading

/-- A 4h divergence signal waiting for 1h confirmation (src/bot/main.py,
ActiveSetup).  Times are integer epochs. -/
structure ActiveSetup where
  signal : DivergenceSignal
  detected_at : ℤ
  expires_at : ℤ
  direction : SignalDirection
  signal_id : Option String := none
  deriving DecidableEq, Repr

/-- Broker-namespaced setup key (main.py, _setup_key). -/
def _setup_key (symbol : String) : String :=
  (route_symbol symbol).value ++ ":" ++ symbol

/-- The process-local setup store, keyed by _setup_key. -/
def SetupStore := List (String × List ActiveSetup)

/-- Remove expired setups from all symbols (main.py, _expire_setups);
empty keys are deleted. -/
def _expire_setups (now : ℤ) (store : SetupStore) : SetupStore :=
  (store.map (fun kv => (kv.1, kv.2.filter (fun s => now < s.expires_at))))
    |>.filter (fun kv => ¬ kv.2.isEmpty)

/-- Find an active 4h setup for symbol and direction (main.py,
_find_matching_setup): first setup under the key with the same
direction. -/
def _find_matching_setup (store : SetupStore) (symbol : String)
    (direction : SignalDirection) : Option ActiveSetup :=
  ((store.lookup (_setup_key symbol)).getD []).find?
    (fun s => s.direction == direction)

/-- Build a confirmed signal from a 4h setup and a 1h trigger
(main.py, _build_confirmed_signal): entry from the 1h signal, stop
from the 4h setup with 1h fallback when the 4h stop is on the wrong
side of the 1h entry, take profits recomputed from the risk distance
and min_risk_reward; None when the levels are invalid.  The reasoning
text is elided. -/
def _build_confirmed_signal (setup : ActiveSetup)
    (signal_1h : DivergenceSignal) (cfg : Settings) :
    Option DivergenceSignal :=
  match signal_1h.entry_price, setup.signal.stop_loss with
  | some entry, some sl0 =>
      match setup.direction with
      | .long =>
          let stop_loss : Option ℚ :=
            if sl0 ≥ entry then signal_1h.stop_loss else some sl0
          match stop_loss with
          | none => none
          | some sl =>
              if sl ≥ entry then none
              else
                let risk := entry - sl
                some { divergence_detected := true,
                       divergence_type := setup.signal.divergence_type,
                       indicator := some ("4h:" ++ pyStr setup.signal.indicator
                         ++ ", 1h:" ++ pyStr signal_1h.indicator),
                       confidence := max setup.signal.confidence
                         signal_1h.confidence,
                       direction := some .long,
                       entry_price := some entry,
                       stop_loss := some sl,
                       take_profit_1 := some (entry + risk * cfg.min_risk_reward),
                       take_profit_2 := some (entry + risk * cfg.min_risk_reward
                         * (3 / 2)),
                       take_profit_3 := some (entry + risk * cfg.min_risk_reward
                         * 2),
                       reasoning := "Multi-TF confirmed",
                       symbol := signal_1h.symbol,
                       timeframe := "4h+1h" }
      | .short =>
          let stop_loss : Option ℚ :=
            if sl0 ≤ entry then signal_1h.stop_loss else some sl0
          match stop_loss with
          | none => none
          | some sl =>
              if sl ≤ entry then none
              else
                let risk := sl - entry
                some { divergence_detected := true,
                       divergence_type := setup.signal.divergence_type,
                       indicator := some ("4h:" ++ pyStr setup.signal.indicator
                         ++ ", 1h:" ++ pyStr signal_1h.indicator),
                       confidence := max setup.signal.confidence
                         signal_1h.confidence,
                       direction := some .short,
                       entry_price := some entry,
                       stop_loss := some sl,
                       take_profit_1 := some (entry - risk * cfg.min_risk_reward),
                       take_profit_2 := some (entry - risk * cfg.min_risk_reward
                         * (3 / 2)),
                       take_profit_3 := some (entry - risk * cfg.min_risk_reward
                         * 2),
                       reasoning := "Multi-TF confirmed",
                       symbol := signal_1h.symbol,
                       timeframe := "4h+1h" }
  | _, _ => none

/-- The 1h branch of the multi-TF dispatch (main.py, analysis_cycle,
the `timeframe == "1h"` arm): find a matching setup, build the
confirmed signal, and remove the consumed setup from the store
(deleting the key when its list becomes empty); on no match or invalid
levels the signal is skipped and the store is unchanged. -/
def multi_tf_1h_step (cfg : Settings) (store : SetupStore) (symbol : String)
    (signal : DivergenceSignal) : Option DivergenceSignal × SetupStore :=
  match signal.direction with
  | none => (none, store)
  | some d =>
      match _find_matching_setup store symbol d with
      | none => (none, store)
      | some matching_setup =>
          match _build_confirmed_signal matching_setup signal cfg with
          | none => (none, store)
          | some confirmed =>
              let key := _setup_key symbol
              let newList := ((store.lookup key).getD []).erase matching_setup
              let store2 :=
                if newList.isEmpty then
                  store.filter (fun kv => kv.1 ≠ key)
                else
                  store.map (fun kv =>
                    if kv.1 = key then (kv.1, newList) else kv)
              (some confirmed, store2)

end Trading

namespace Trading

/-- C6: a validated 1h signal matching the only ActiveSetup of its
symbol and direction produces exactly one confirmed signal — entry
from the 1h signal, stop loss from the 4h setup or the 1h stop when
the 4h stop is on the wrong side of the 1h entry, timeframe 4h+1h, TPs
recomputed from the risk distance and the configured R:R — and removes
the consumed setup, so a later 1h signal finds no matching setup and
is skipped. -/
theorem multi_tf_confirmation_consumes_setup (cfg : Settings)
    (m : ActiveSetup) (sig : DivergenceSignal) (symbol : String)
    (d : SignalDirection) (e sl1 sl4 : ℚ)
    (hm : m.direction = d) (hdir : sig.direction = some d)
    (he : sig.entry_price = some e) (hsl1 : sig.stop_loss = some sl1)
    (hsl4 : m.signal.stop_loss = some sl4)
    (hlong : d = SignalDirection.long → sl1 < e)
    (hshort : d = SignalDirection.short → e < sl1) :
    (d = SignalDirection.long →
      multi_tf_1h_step cfg [(_setup_key symbol, [m])] symbol sig =
        (some { divergence_detected := true,
                divergence_type := m.signal.divergence_type,
                indicator := some ("4h:" ++ pyStr m.signal.indicator ++
                  ", 1h:" ++ pyStr sig.indicator),
                confidence := max m.signal.confidence sig.confidence,
                direction := some SignalDirection.long,
                entry_price := some e,
                stop_loss := some (if sl4 ≥ e then sl1 else sl4),
                take_profit_1 := some (e + (e - (if sl4 ≥ e then sl1
                  else sl4)) * cfg.min_risk_reward),
                take_profit_2 := some (e + (e - (if sl4 ≥ e then sl1
                  else sl4)) * cfg.min_risk_reward * (3 / 2)),
                take_profit_3 := some (e + (e - (if sl4 ≥ e then sl1
                  else sl4)) * cfg.min_risk_reward * 2),
                reasoning := "Multi-TF confirmed",
                symbol := sig.symbol, timeframe := "4h+1h" }, [])) ∧
    (d = SignalDirection.short →
      multi_tf_1h_step cfg [(_setup_key symbol, [m])] symbol sig =
        (some { divergence_detected := true,
                divergence_type := m.signal.divergence_type,
                indicator := some ("4h:" ++ pyStr m.signal.indicator ++
                  ", 1h:" ++ pyStr sig.indicator),
                confidence := max m.signal.confidence sig.confidence,
                direction := some SignalDirection.short,
                entry_price := some e,
                stop_loss := some (if sl4 ≤ e then sl1 else sl4),
                take_profit_1 := some (e - ((if sl4 ≤ e then sl1
                  else sl4) - e) * cfg.min_risk_reward),
                take_profit_2 := some (e - ((if sl4 ≤ e then sl1
                  else sl4) - e) * cfg.min_risk_reward * (3 / 2)),
                take_profit_3 := some (e - ((if sl4 ≤ e then sl1
                  else sl4) - e) * cfg.min_risk_reward * 2),
                reasoning := "Multi-TF confirmed",
                symbol := sig.symbol, timeframe := "4h+1h" }, [])) ∧
    (∀ sig2 : DivergenceSignal,
      multi_tf_1h_step cfg [] symbol sig2 = (none, [])) := by
  refine ⟨?_, ?_, ?_⟩
  · intro hd
    subst hd
    by_cases hge : sl4 ≥ e
    · have h1 : ¬ (sl1 ≥ e) := not_le.mpr (hlong rfl)
      simp [multi_tf_1h_step, hdir, _find_matching_setup, List.lookup,
        hm, _build_confirmed_signal, he, hsl4, hsl1, hge, h1, List.erase,
        List.filter]
    · have h4 : ¬ (sl4 ≥ e) := hge
      simp [multi_tf_1h_step, hdir, _find_matching_setup, List.lookup,
        hm, _build_confirmed_signal, he, hsl4, hsl1, h4, List.erase,
        List.filter]
  · intro hd
    subst hd
    by_cases hge : sl4 ≤ e
    · have h1 : ¬ (sl1 ≤ e) := not_le.mpr (hshort rfl)
      simp [multi_tf_1h_step, hdir, _find_matching_setup, List.lookup,
        hm, _build_confirmed_signal, he, hsl4, hsl1, hge, h1, List.erase,
        List.filter]
    · have h4 : ¬ (sl4 ≤ e) := hge
      simp [multi_tf_1h_step, hdir, _find_matching_setup, List.lookup,
        hm, _build_confirmed_signal, he, hsl4, hsl1, h4, List.erase,
        List.filter]
  · intro sig2
    cases hd2 : sig2.direction <;>
      simp [multi_tf_1h_step, hd2, _find_matching_setup, List.lookup]

end Trading

namespace Trading

/-- Scenario S6 4h setup signal (bullish, stop 95). -/
def sig4hS6 : DivergenceSignal :=
  { divergence_detected := true, confidence := 8 / 10,
    direction := some .long, entry_price := some 99,
    stop_loss := some 95, take_profit_1 := some 107,
    indicator := some "RSI", symbol := "BTC/USDT", timeframe := "4h" }

/-- Scenario S6 active setup holding the 4h signal. -/
def setupS6 : ActiveSetup :=
  { signal := sig4hS6, detected_at := 0, expires_at := 86400,
    direction := .long, signal_id := some "sig-4h" }

/-- Scenario S6 1h trigger signal (bullish, entry 100, stop 97). -/
def sig1hS6 : DivergenceSignal :=
  { divergence_detected := true, confidence := 9 / 10,
    direction := some .long, entry_price := some 100,
    stop_loss := some 97, take_profit_1 := some 106,
    indicator := some "MACD", symbol := "BTC/USDT", timeframe := "1h" }

/-- Witness for C6 on scenario S6: the 1h bullish trigger consumes the
4h setup, yielding one confirmed signal with timeframe 4h+1h, entry
100 (1h), stop 95 (4h structural), TP1 110 from the configured R:R 2;
the store is emptied, and a second identical 1h signal is skipped. -/
theorem multi_tf_confirmation_consumes_setup_witness :
    (multi_tf_1h_step cfgDefault [(_setup_key "BTC/USDT", [setupS6])]
      "BTC/USDT" sig1hS6).1.map
        (fun c => (c.timeframe, c.entry_price, c.stop_loss,
          c.take_profit_1)) =
      some ("4h+1h", some 100, some 95, some 110) ∧
    (multi_tf_1h_step cfgDefault [(_setup_key "BTC/USDT", [setupS6])]
      "BTC/USDT" sig1hS6).2 = [] ∧
    multi_tf_1h_step cfgDefault [] "BTC/USDT" sig1hS6 = (none, []) := by
  have h := multi_tf_confirmation_consumes_setup cfgDefault setupS6 sig1hS6
    "BTC/USDT" .long 100 97 95 rfl rfl rfl rfl rfl
    (fun _ => by norm_num) (fun hc => by exact absurd hc (by decide))
  have h1 := h.1 rfl
  refine ⟨?_, ?_, h.2.2 sig1hS6⟩
  · rw [h1]
    norm_num [setupS6, sig4hS6, sig1hS6, cfgDefault]
  · rw [h1]

end Trading

namespace Trading

/-- The process-local candle caches of the analysis cycle
(src/bot/main.py, _last_candle_times and _signaled_candles), as
association lists from "symbol/timeframe" keys to ISO timestamps. -/
structure CycleCaches where
  last_candle_times : List (String × String) := []
  signaled_candles : List (String × String) := []
  deriving DecidableEq, Repr

/-- Python dict assignment d[k] = v on an association list. -/
def setAssoc (l : List (String × String)) (k v : String) :
    List (String × String) :=
  if (l.lookup k).isSome then
    l.map (fun kv => if kv.1 = k then (k, v) else kv)
  else l ++ [(k, v)]

/-- Python dict d.pop(k, None) on an association list. -/
def popAssoc (l : List (String × String)) (k : String) :
    List (String × String) :=
  l.filter (fun kv => kv.1 ≠ k)

/-- Candle-cache seeding on startup (main.py, _seed_candle_cache):
one limit-1 OHLCV fetch per (symbol, timeframe); `fetches` carries the
latest candle timestamp per key, none when the fetch returned no
candles or raised.  Only _last_candle_times is populated. -/
def _seed_candle_cache (fetches : List (String × Option String)) :
    CycleCaches :=
  ⟨fetches.foldl (fun acc kv =>
      match kv.2 with
      | some ts => setAssoc acc kv.1 ts
      | none => acc) [],
   []⟩

/-- Result of the candle-status, dedup and detection portion of one
(symbol, timeframe) iteration of the analysis cycle. -/
structure PairStepResult where
  caches : CycleCaches
  status : String
  analyzed : Bool
  found : ℕ
  deriving DecidableEq, Repr

/-- The candle-status, signal-dedup and detector portion of one
(symbol, timeframe) iteration of analysis_cycle (main.py, lines
330-365): a new latest timestamp marks the candle closed, updates the
cache and clears the dedup entry; an unchanged timestamp marks it
forming.  If the candle already produced a signal the pair is skipped;
otherwise the detector runs (`detected` is its verdict, the detector
itself being the external pluggable analyser) and a detection
increments signals_found and records the dedup entry. -/
def analysis_pair_step (caches : CycleCaches) (key latest_ts : String)
    (detected : Bool) : PairStepResult :=
  let prev := caches.last_candle_times.lookup key
  let status := if prev ≠ some latest_ts then "closed" else "forming"
  let caches :=
    if prev ≠ some latest_ts then
      ⟨setAssoc caches.last_candle_times key latest_ts,
       popAssoc caches.signaled_candles key⟩
    else caches
  if caches.signaled_candles.lookup key = some latest_ts then
    ⟨caches, status, false, 0⟩
  else
    if detected then
      ⟨⟨caches.last_candle_times,
        setAssoc caches.signaled_candles key latest_ts⟩, status, true, 1⟩
    else ⟨caches, status, true, 0⟩

/-- The signal-counting portion of a whole analysis cycle over its
(key, latest timestamp, detected) pairs, returning the final caches,
signals_found, and the per-pair candle statuses. -/
def analysis_cycle_signals (caches : CycleCaches) :
    List (String × String × Bool) → CycleCaches × ℕ × List String
  | [] => (caches, 0, [])
  | p :: rest =>
      let r := analysis_pair_step caches p.1 p.2.1 p.2.2
      let rec_out := analysis_cycle_signals r.caches rest
      (rec_out.1, r.found + rec_out.2.1, r.status :: rec_out.2.2)

/-- C9 counterexample: after seeding, a cycle whose fetch returns the
seeded timestamp still invokes the detector on the forming candle; a
detector that reports a divergence yields one signal, not zero. -/
theorem seeded_cycle_detector_still_runs :
    (analysis_cycle_signals
      (_seed_candle_cache [("BTC/USDT/1h", some "2025-01-01T00:00:00")])
      [("BTC/USDT/1h", "2025-01-01T00:00:00", true)]).2.1 = 1 ∧
    (analysis_cycle_signals
      (_seed_candle_cache [("BTC/USDT/1h", some "2025-01-01T00:00:00")])
      [("BTC/USDT/1h", "2025-01-01T00:00:00", true)]).2.2 = ["forming"] ∧
    (1 : ℕ) ≠ 0 := by
  refine ⟨?_, ?_, by decide⟩ <;> rfl

/-- C9 (amended): with every fetch returning the seeded timestamp, the
initial cycle marks every pair as forming, leaves the caches
unchanged, and produces zero signals provided the detector reports no
divergence on those forming candles; the detector is nevertheless
invoked whenever the pair is not deduplicated. -/
theorem seeded_cycle_no_new_candles (c : CycleCaches)
    (pairs : List (String × String × Bool))
    (hsig : c.signaled_candles = [])
    (hts : ∀ p ∈ pairs, c.last_candle_times.lookup p.1 = some p.2.1)
    (hdet : ∀ p ∈ pairs, p.2.2 = false) :
    analysis_cycle_signals c pairs =
      (c, 0, List.replicate pairs.length "forming") ∧
    (∀ key ts det, c.last_candle_times.lookup key = some ts →
      (analysis_pair_step c key ts det).analyzed = true) := by
  constructor
  · induction pairs with
    | nil => simp [analysis_cycle_signals]
    | cons p rest ih =>
        have hp := hts p (by simp)
        have hd := hdet p (by simp)
        have hstep : analysis_pair_step c p.1 p.2.1 p.2.2 =
            ⟨c, "forming", true, 0⟩ := by
          simp [analysis_pair_step, hp, hsig, hd]
        simp only [analysis_cycle_signals, hstep]
        have ihr := ih (fun q hq => hts q (by simp [hq]))
          (fun q hq => hdet q (by simp [hq]))
        simp [ihr, List.replicate]
  · intro key ts det hk
    cases det <;> simp [analysis_pair_step, hk, hsig]

end Trading

namespace Trading

/-- Witness for the amended C9 theorem: a seeded single-pair cycle with
an unchanged timestamp and a silent detector yields zero signals and a
forming status. -/
theorem seeded_cycle_no_new_candles_witness :
    analysis_cycle_signals
      (_seed_candle_cache [("BTC/USDT/1h", some "2025-01-01T00:00:00")])
      [("BTC/USDT/1h", "2025-01-01T00:00:00", false)] =
      (_seed_candle_cache [("BTC/USDT/1h", some "2025-01-01T00:00:00")],
        0, ["forming"]) := by
  have h := seeded_cycle_no_new_candles
    (_seed_candle_cache [("BTC/USDT/1h", some "2025-01-01T00:00:00")])
    [("BTC/USDT/1h", "2025-01-01T00:00:00", false)]
    rfl (by decide) (by decide)
  simpa using h.1

end Trading
